import Mathlib

/-!
# Verification of the PCF decoder of `ibm-mq-statnacct`

A shallow embedding of the PCF (Programmable Command Format) decoding core
of the repository: the header decoder, the parameter stream decoder, the
parameter-id name resolver (`src/pcf_parser.py`), the constant tables of
`src/mq_constants.py`, and the corruption-tolerant identity extractor
(`src/enhanced_pcf_extractor.py`).

Byte buffers are modelled as `List Nat` (each element a byte value 0..255);
Python dicts that grow fixed key sets are modelled as records; Python's
`None` returns are modelled with `Option`.
-/

namespace MQStat

/-! ## Byte-level helpers -/

/-- Big-endian 32-bit read at `off`, as `struct.unpack` with format code
    `>L` does on `buf[off:off+4]` (unsigned).  Out-of-range reads yield 0;
    all callers in the embedding guard the length first, as the source
    does. -/
def be32At (buf : List Nat) (off : Nat) : Nat :=
  buf.getD off 0 * 16777216 + buf.getD (off + 1) 0 * 65536 +
    buf.getD (off + 2) 0 * 256 + buf.getD (off + 3) 0

/-- Is `b` a UTF-8 continuation byte (`10xxxxxx`)? -/
def utf8Cont (b : Nat) : Bool := 128 ≤ b && b < 192

/-- Strict UTF-8 decoding of a byte list, as Python's
    `bytes.decode("utf-8")`: `none` on any invalid, overlong, surrogate or
    out-of-range sequence. -/
def utf8DecodeStrict (l : List Nat) : Option (List Char) :=
  match l with
  | [] => some []
  | b :: rest =>
    if b < 128 then
      (utf8DecodeStrict rest).map (Char.ofNat b :: ·)
    else if 194 ≤ b && b ≤ 223 then
      match rest with
      | b2 :: rest2 =>
        if utf8Cont b2 then
          (utf8DecodeStrict rest2).map (Char.ofNat ((b - 192) * 64 + (b2 - 128)) :: ·)
        else none
      | [] => none
    else if 224 ≤ b && b ≤ 239 then
      match rest with
      | b2 :: b3 :: rest3 =>
        let lo2 : Nat := if b = 224 then 160 else 128
        let hi2 : Nat := if b = 237 then 159 else 191
        if lo2 ≤ b2 && b2 ≤ hi2 && utf8Cont b3 then
          (utf8DecodeStrict rest3).map
            (Char.ofNat ((b - 224) * 4096 + (b2 - 128) * 64 + (b3 - 128)) :: ·)
        else none
      | _ => none
    else if 240 ≤ b && b ≤ 244 then
      match rest with
      | b2 :: b3 :: b4 :: rest4 =>
        let lo2 : Nat := if b = 240 then 144 else 128
        let hi2 : Nat := if b = 244 then 143 else 191
        if lo2 ≤ b2 && b2 ≤ hi2 && utf8Cont b3 && utf8Cont b4 then
          (utf8DecodeStrict rest4).map
            (Char.ofNat ((b - 240) * 262144 + (b2 - 128) * 4096 +
              (b3 - 128) * 64 + (b4 - 128)) :: ·)
        else none
      | _ => none
    else none

/-- Byte decoding with Python's `errors="ignore"` handler: invalid bytes
    are skipped.  Models `bytes.decode("utf-8", errors="ignore")`.  The
    fuel argument (at least the list length) only forces termination; each
    step consumes at least one byte. -/
def utf8DecodeIgnoreAux : Nat → List Nat → List Char
  | 0, _ => []
  | _, [] => []
  | fuel + 1, b :: rest =>
    if b < 128 then
      Char.ofNat b :: utf8DecodeIgnoreAux fuel rest
    else if 194 ≤ b && b ≤ 223 then
      match rest with
      | b2 :: rest2 =>
        if utf8Cont b2 then
          Char.ofNat ((b - 192) * 64 + (b2 - 128)) :: utf8DecodeIgnoreAux fuel rest2
        else utf8DecodeIgnoreAux fuel (b2 :: rest2)
      | [] => []
    else if 224 ≤ b && b ≤ 239 then
      match rest with
      | b2 :: b3 :: rest3 =>
        let lo2 : Nat := if b = 224 then 160 else 128
        let hi2 : Nat := if b = 237 then 159 else 191
        if lo2 ≤ b2 && b2 ≤ hi2 && utf8Cont b3 then
          Char.ofNat ((b - 224) * 4096 + (b2 - 128) * 64 + (b3 - 128)) ::
            utf8DecodeIgnoreAux fuel rest3
        else utf8DecodeIgnoreAux fuel (b2 :: b3 :: rest3)
      | [b2] => utf8DecodeIgnoreAux fuel [b2]
      | [] => []
    else if 240 ≤ b && b ≤ 244 then
      match rest with
      | b2 :: b3 :: b4 :: rest4 =>
        let lo2 : Nat := if b = 240 then 144 else 128
        let hi2 : Nat := if b = 244 then 143 else 191
        if lo2 ≤ b2 && b2 ≤ hi2 && utf8Cont b3 && utf8Cont b4 then
          Char.ofNat ((b - 240) * 262144 + (b2 - 128) * 4096 +
            (b3 - 128) * 64 + (b4 - 128)) :: utf8DecodeIgnoreAux fuel rest4
        else utf8DecodeIgnoreAux fuel (b2 :: b3 :: b4 :: rest4)
      | [b2, b3] => utf8DecodeIgnoreAux fuel [b2, b3]
      | [b2] => utf8DecodeIgnoreAux fuel [b2]
      | [] => []
    else utf8DecodeIgnoreAux fuel rest

/-- `bytes.decode("utf-8", errors="ignore")`. -/
def utf8DecodeIgnore (l : List Nat) : List Char :=
  utf8DecodeIgnoreAux l.length l

/-- Latin-1 decoding (`bytes.decode("latin-1")`): every byte value is a
    code point. -/
def latin1Decode (l : List Nat) : List Char := l.map Char.ofNat

/-- `s.decode("utf-8")` with the source's `except UnicodeDecodeError`
    fallback to `s.decode("latin-1")` (from `_parse_string_parameter`). -/
def pyDecodeUtf8Latin1 (l : List Nat) : String :=
  match utf8DecodeStrict l with
  | some cs => String.mk cs
  | none => String.mk (latin1Decode l)

/-- Python's `str.rstrip("\x00")`. -/
def rstripNull (s : String) : String :=
  String.mk ((s.data.reverse.dropWhile (· = Char.ofNat 0)).reverse)

/-- A Python whitespace character, as stripped by `str.strip()`. -/
def isPySpace (c : Char) : Bool :=
  c = ' ' || c = Char.ofNat 9 || c = Char.ofNat 10 || c = Char.ofNat 11 ||
    c = Char.ofNat 12 || c = Char.ofNat 13

/-- Python's `str.strip()` (whitespace from both ends). -/
def pyStrip (s : String) : String :=
  String.mk (((s.data.dropWhile isPySpace).reverse.dropWhile isPySpace).reverse)

/-- One hexadecimal digit, uppercase. -/
def hexDigitUpper (n : Nat) : Char :=
  if n < 10 then Char.ofNat (48 + n) else Char.ofNat (55 + n)

/-- One hexadecimal digit, lowercase. -/
def hexDigitLower (n : Nat) : Char :=
  if n < 10 then Char.ofNat (48 + n) else Char.ofNat (87 + n)

/-- Worker for the digits of Python's `"%X" % n`, most significant
    first. -/
def natHexDigitsAux : Nat → Nat → List Char
  | 0, n => [hexDigitUpper n]
  | fuel + 1, n =>
    if n < 16 then [hexDigitUpper n]
    else natHexDigitsAux fuel (n / 16) ++ [hexDigitUpper (n % 16)]

/-- Uppercase hexadecimal digits of `n`, most significant first.  The fuel
    (`n` itself is always enough) only forces termination. -/
def natHexDigits (n : Nat) : List Char :=
  natHexDigitsAux n n

/-- Python's `f"{n:08X}"`: uppercase hexadecimal, zero-padded on the left
    to at least eight digits. -/
def hex8Upper (n : Nat) : String :=
  let ds := natHexDigits n
  String.mk (List.replicate (8 - ds.length) '0' ++ ds)

/-- Python's `bytes.hex()` — two lowercase hex digits per byte. -/
def bytesHexLower (l : List Nat) : String :=
  String.mk (l.foldr (fun b acc => hexDigitLower (b / 16) :: hexDigitLower (b % 16) :: acc) [])

/-- Lookup in a Python dict built from a key-value list literal: a
    repeated key keeps the *last* entry, so the reversed list is searched
    front to back.  Models `dict.get(key)` on a dict literal. -/
def pyDictGet (entries : List (Nat × String)) (key : Nat) : Option String :=
  ((entries.reverse).find? (fun e => e.fst == key)).map (·.snd)

/-! ## The parameter-id name tables -/

/-- The `param_names` dict literal of `PCFParser.get_parameter_name`
    in `src/pcf_parser.py`, in source order. -/
def pcfParamNames : List (Nat × String) := [
  (2001, "MQCA_Q_NAME"),
  (2002, "MQCA_Q_MGR_NAME"),
  (2003, "MQCA_PROCESS_NAME"),
  (2004, "MQCA_TRIGGER_DATA"),
  (2005, "MQCA_Q_DESC"),
  (2006, "MQCA_CREATION_DATE"),
  (2007, "MQCA_CREATION_TIME"),
  (2008, "MQCA_ALTERATION_DATE"),
  (2009, "MQCA_ALTERATION_TIME"),
  (2010, "MQCA_BACKOUT_REQ_Q_NAME"),
  (2011, "MQCA_INITIATION_Q_NAME"),
  (2012, "MQCA_DEAD_LETTER_Q_NAME"),
  (2013, "MQCA_DEF_XMIT_Q_NAME"),
  (2014, "MQCA_CF_STRUC_NAME"),
  (2015, "MQCA_QSG_NAME"),
  (2016, "MQCA_STORAGE_CLASS"),
  (2017, "MQCA_XCFGNAME"),
  (2018, "MQCA_XCFMNAME"),
  (2019, "MQCA_COMMAND_MQSC"),
  (2020, "MQCA_Q_MGR_IDENTIFIER"),
  (2021, "MQCA_CLUSTER_NAME"),
  (2022, "MQCA_CLUSTER_NAMELIST"),
  (2023, "MQCA_CLUSTER_Q_MGR_NAME"),
  (2024, "MQCA_CLUS_CHL_NAME"),
  (2025, "MQCA_AUTH_INFO_NAME"),
  (2026, "MQCA_AUTH_INFO_DESC"),
  (2027, "MQCA_LDAP_USER_NAME"),
  (2028, "MQCA_AUTH_INFO_CONN_NAME"),
  (2029, "MQCA_LDAP_PASSWORD"),
  (2030, "MQCA_SSL_CRL_NAMELIST"),
  (2031, "MQCA_SSL_CRYPTO_HARDWARE"),
  (2032, "MQCA_SSL_KEY_REPOSITORY"),
  (2033, "MQCA_SSL_KEY_MEMBER"),
  (2034, "MQCA_SSL_CIPHER_SPEC"),
  (2035, "MQCA_SSL_PEER_NAME"),
  (2036, "MQCA_SSL_CLIENT_AUTH"),
  (3501, "MQCACH_CHANNEL_NAME"),
  (3502, "MQCACH_DESC"),
  (3503, "MQCACH_MODE_NAME"),
  (3504, "MQCACH_TP_NAME"),
  (3505, "MQCACH_CONNECTION_NAME"),
  (3506, "MQCACH_XMIT_Q_NAME"),
  (3507, "MQCACH_CLUSTER_NAME"),
  (3508, "MQCACH_CLUSTER_NAMELIST"),
  (3509, "MQCACH_MODENAME"),
  (3510, "MQCACH_USER_ID"),
  (3511, "MQCACH_PASSWORD"),
  (3512, "MQCACH_LOCAL_ADDRESS"),
  (3513, "MQCACH_LOCAL_NAME"),
  (3514, "MQCACH_LAST_MSG_TIME"),
  (3515, "MQCACH_LAST_MSG_DATE"),
  (3516, "MQCACH_MCA_NAME"),
  (3517, "MQCACH_MCA_TYPE"),
  (3518, "MQCACH_MCA_USER_ID"),
  (3519, "MQCACH_NETWORK_PRIORITY"),
  (3520, "MQCACH_SEQUENCE_NUMBER_WRAP"),
  (3521, "MQCACH_MAX_MSG_LENGTH"),
  (3522, "MQCACH_PUT_AUTHORITY"),
  (3523, "MQCACH_DATA_CONVERSION"),
  (3524, "MQCACH_SECURITY_EXIT"),
  (3525, "MQCACH_MSG_EXIT"),
  (3526, "MQCACH_SEND_EXIT"),
  (3527, "MQCACH_RECEIVE_EXIT"),
  (3528, "MQCACH_SEQ_NUMBER_WRAP"),
  (3529, "MQCACH_MAX_MSG_LENGTH"),
  (3530, "MQCACH_PUT_AUTHORITY"),
  (3531, "MQCACH_DATA_CONVERSION"),
  (3532, "MQCACH_SECURITY_EXIT_NAME"),
  (3533, "MQCACH_MSG_EXIT_NAME"),
  (3534, "MQCACH_SEND_EXIT_NAME"),
  (3535, "MQCACH_RECEIVE_EXIT_NAME"),
  (3536, "MQCACH_CHANNEL_AUTO_DEF_EXIT"),
  (3537, "MQCACH_CHANNEL_AUTO_DEF_EVENT"),
  (3538, "MQCACH_SSL_CIPHER_SPEC"),
  (3539, "MQCACH_SSL_PEER_NAME"),
  (3540, "MQCACH_SSL_CLIENT_AUTH"),
  (1, "MQIA_Q_TYPE"),
  (2, "MQIA_MAX_Q_DEPTH"),
  (3, "MQIA_MAX_MSG_LENGTH"),
  (4, "MQIA_BACKOUT_THRESHOLD"),
  (5, "MQIA_SHAREABILITY"),
  (6, "MQIA_DEF_SHAREABILITY"),
  (7, "MQIA_HARDEN_GET_BACKOUT"),
  (8, "MQIA_MSG_DELIVERY_SEQUENCE"),
  (9, "MQIA_RETENTION_INTERVAL"),
  (10, "MQIA_Q_DEPTH_HIGH_EVENT"),
  (11, "MQIA_Q_DEPTH_LOW_EVENT"),
  (12, "MQIA_Q_SERVICE_INTERVAL_EVENT"),
  (13, "MQIA_Q_DEPTH_MAX_EVENT"),
  (14, "MQIA_CURRENT_Q_DEPTH"),
  (15, "MQIA_OPEN_INPUT_COUNT"),
  (16, "MQIA_OPEN_OUTPUT_COUNT"),
  (17, "MQIA_HIGH_Q_DEPTH"),
  (18, "MQIA_MSG_ENQ_COUNT"),
  (19, "MQIA_MSG_DEQ_COUNT"),
  (20, "MQIA_TIME_SINCE_RESET"),
  (21, "MQIA_Q_DEPTH_HIGH_LIMIT"),
  (22, "MQIA_Q_DEPTH_LOW_LIMIT"),
  (23, "MQIA_Q_SERVICE_INTERVAL"),
  (24, "MQIA_INHIBIT_PUT"),
  (25, "MQIA_INHIBIT_GET"),
  (26, "MQIA_TRIGGER_CONTROL"),
  (27, "MQIA_TRIGGER_TYPE"),
  (28, "MQIA_TRIGGER_DEPTH"),
  (29, "MQIA_TRIGGER_MSG_PRIORITY"),
  (30, "MQIA_DEF_PRIORITY"),
  (31, "MQIA_DEF_PERSISTENCE"),
  (32, "MQIA_DEF_INPUT_OPEN_OPTION"),
  (33, "MQIA_DEF_BIND"),
  (34, "MQIA_MAX_HANDLES"),
  (35, "MQIA_MAX_UNCOMMITTED_MSGS"),
  (36, "MQIA_SYNC_POINT"),
  (37, "MQIA_DEFSOPT"),
  (38, "MQIA_DEF_READ_AHEAD"),
  (39, "MQIA_DEF_PROPERTY_CONTROL"),
  (40, "MQIA_PROPERTY_CONTROL"),
  (41, "MQIA_PAGESET_ID"),
  (42, "MQIA_USAGE"),
  (43, "MQIA_DEFINITION_TYPE"),
  (44, "MQIA_CLUSTER_PUB_ROUTE"),
  (45, "MQIA_CLUSTER_SUB_ROUTE"),
  (46, "MQIA_CLUSTER_WORKLOAD_USEQ"),
  (47, "MQIA_CLUSTER_WORKLOAD_RANK"),
  (48, "MQIA_DISTL_BIND"),
  (49, "MQIA_Q_MGR_STATUS"),
  (50, "MQIA_PLATFORM"),
  (51, "MQIA_PUT_COUNT"),
  (52, "MQIA_GET_COUNT"),
  (53, "MQIA_BROWSE_COUNT"),
  (54, "MQIA_PUT1_COUNT"),
  (55, "MQIA_CB_COUNT"),
  (56, "MQIA_CTL_COUNT"),
  (57, "MQIA_INQ_COUNT"),
  (58, "MQIA_SET_COUNT"),
  (59, "MQIA_CONNECT_COUNT"),
  (60, "MQIA_DISC_COUNT"),
  (61, "MQIA_OPEN_COUNT"),
  (62, "MQIA_CLOSE_COUNT"),
  (63, "MQIA_SUB_COUNT"),
  (64, "MQIA_SUBRQ_COUNT"),
  (65, "MQIA_CHL_COUNT"),
  (66, "MQIA_CHL_TOTAL_BYTES"),
  (67, "MQIA_CHL_TIME_INDICATOR"),
  (68, "MQIA_CHL_BATCH_SIZE"),
  (69, "MQIA_CHL_BATCH_INTERVAL"),
  (70, "MQIA_CHL_LONG_RETRY_COUNT"),
  (71, "MQIA_CHL_LONG_RETRY_INTERVAL"),
  (72, "MQIA_CHL_SHORT_RETRY_COUNT"),
  (73, "MQIA_CHL_SHORT_RETRY_INTERVAL"),
  (74, "MQIA_CHL_MCA_TYPE"),
  (75, "MQIA_CHL_TRANSPORT_TYPE"),
  (76, "MQIA_CHL_DATA_COUNT"),
  (77, "MQIA_CHL_MAX_MSG_LENGTH"),
  (78, "MQIA_CHL_NETWORK_PRIORITY"),
  (79, "MQIA_CHL_SEQUENCE_NUMBER_WRAP"),
  (80, "MQIA_CHL_PUT_AUTHORITY"),
  (1501, "MQIACH_CHANNEL_TYPE"),
  (1502, "MQIACH_TRANSPORT_TYPE"),
  (1503, "MQIACH_DATA_COUNT"),
  (1504, "MQIACH_NAME_COUNT"),
  (1505, "MQIACH_MAX_MSG_LENGTH"),
  (1506, "MQIACH_BATCH_SIZE"),
  (1507, "MQIACH_BATCH_INTERVAL"),
  (1508, "MQIACH_LONG_RETRY_COUNT"),
  (1509, "MQIACH_LONG_RETRY_INTERVAL"),
  (1510, "MQIACH_SHORT_RETRY_COUNT"),
  (1511, "MQIACH_SHORT_RETRY_INTERVAL"),
  (1512, "MQIACH_DISC_INTERVAL"),
  (1513, "MQIACH_THRESHOLD"),
  (1514, "MQIACH_PRIORITY"),
  (1515, "MQIACH_DATA_CONVERSION"),
  (1516, "MQIACH_SECURITY_EXIT_COUNT"),
  (1517, "MQIACH_MSG_EXIT_COUNT"),
  (1518, "MQIACH_SEND_EXIT_COUNT"),
  (1519, "MQIACH_RECEIVE_EXIT_COUNT"),
  (1520, "MQIACH_CHANNEL_INSTANCE_TYPE"),
  (1521, "MQIACH_CHANNEL_INSTANCE_ATTRS"),
  (1522, "MQIACH_SSL_CLIENT_AUTH"),
  (1523, "MQIACH_KEEP_ALIVE_INTERVAL"),
  (1524, "MQIACH_LOCAL_ADDRESS"),
  (1525, "MQIACH_BATCH_HB"),
  (1526, "MQIACH_HB_INTERVAL"),
  (1527, "MQIACH_SHORT_TIMER"),
  (1528, "MQIACH_BATCH_DATA_LIMIT"),
  (1529, "MQIACH_FAST_PATH"),
  (1530, "MQIACH_DEF_RECONNECT"),
  (1531, "MQIACH_CHANNEL_STATUS"),
  (1532, "MQIACH_INDOUBT_STATUS"),
  (1533, "MQIACH_LAST_SEQ_NUMBER"),
  (1534, "MQIACH_LAST_SEQUENCE_NUMBER"),
  (1535, "MQIACH_CURRENT_SEQ_NUMBER"),
  (1536, "MQIACH_CURRENT_SEQUENCE_NUMBER"),
  (1537, "MQIACH_SSL_RETURN_CODE"),
  (1538, "MQIACH_MSGS"),
  (1539, "MQIACH_BYTES_SENT"),
  (1540, "MQIACH_BYTES_RECEIVED"),
  (1541, "MQIACH_BATCHES"),
  (1542, "MQIACH_BUFFERS_SENT"),
  (1543, "MQIACH_BUFFERS_RECEIVED"),
  (1544, "MQIACH_LONG_RETRIES_LEFT"),
  (1545, "MQIACH_SHORT_RETRIES_LEFT"),
  (1546, "MQIACH_MCA_STATUS"),
  (1547, "MQIACH_STOP_REQUESTED"),
  (1548, "MQIACH_MR_COUNT"),
  (1549, "MQIACH_MR_INTERVAL"),
  (842019381, "MQIA_ACCOUNTING_CONN_OVERRIDE"),
  (842019382, "MQIA_ACCOUNTING_INTERVAL"),
  (842019383, "MQIA_ACTIVITY_RECORDING"),
  (842019384, "MQIA_ADOPTNEWMCA_CHECK"),
  (842019385, "MQIA_ADOPTNEWMCA_TYPE"),
  (842019386, "MQIA_ADOPTNEWMCA_INTERVAL"),
  (842019387, "MQIA_TRACE_ROUTE_RECORDING"),
  (842019388, "MQIA_STATISTICS_AUTO_CLUSSDR"),
  (842019389, "MQIA_STATISTICS_CHANNEL"),
  (842019390, "MQIA_STATISTICS_INTERVAL"),
  (842019391, "MQIA_STATISTICS_MQI"),
  (842019392, "MQIA_STATISTICS_Q"),
  (167772161, "MQCA_APPL_NAME"),
  (167772162, "MQCA_APPL_IDENTITY_DATA"),
  (167772163, "MQCA_ENV_DATA"),
  (167772164, "MQCA_USER_DATA"),
  (167772165, "MQCA_ACCOUNTING_TOKEN"),
  (167772166, "MQCA_CONN_TAG"),
  (301989889, "MQIA_COMMAND_LEVEL"),
  (301989890, "MQIA_Q_MGR_STATUS"),
  (301989891, "MQIA_UNIT_OF_WORK_SIZE"),
  (301989892, "MQIA_ACTIVE_CHANNELS"),
  (301989893, "MQIA_ADOPTNEWMCA_ADVISE"),
  (301989894, "MQIA_ADOPTNEWMCA_CHECK"),
  (301989895, "MQIA_ADOPTNEWMCA_TYPE"),
  (536870912, "MQIA_PUT_TIME"),
  (536870913, "MQIA_GET_TIME"),
  (536870914, "MQIA_BROWSE_TIME"),
  (536870915, "MQIA_COMMIT_TIME"),
  (536870916, "MQIA_ROLLBACK_TIME"),
  (671088640, "MQIA_PUT_BYTES"),
  (671088641, "MQIA_GET_BYTES"),
  (671088642, "MQIA_BROWSE_BYTES"),
  (671088643, "MQIA_PUT_MEAN_SIZE"),
  (671088644, "MQIA_GET_MEAN_SIZE")
]

/-- The `PARAMETER_NAMES` dict literal of `src/mq_constants.py`, in
    source order (the literal repeats some keys; a Python dict literal
    keeps the last entry for a repeated key, which `pyDictGet` mirrors). -/
def parameterNamesConstants : List (Nat × String) := [
  (2016, "MQCA_Q_NAME"),
  (2002, "MQCA_Q_MGR_NAME"),
  (3501, "MQCA_CHANNEL_NAME"),
  (3502, "MQCA_CONNECTION_NAME"),
  (2024, "MQCA_APPL_NAME"),
  (20, "MQIA_Q_TYPE"),
  (3, "MQIA_CURRENT_Q_DEPTH"),
  (65, "MQIA_OPEN_INPUT_COUNT"),
  (66, "MQIA_OPEN_OUTPUT_COUNT"),
  (36, "MQIA_HIGH_Q_DEPTH"),
  (38, "MQIA_MSG_DEQ_COUNT"),
  (37, "MQIA_MSG_ENQ_COUNT"),
  (1501, "MQIACH_MSGS"),
  (1502, "MQIACH_BYTES"),
  (1503, "MQIACH_BATCHES"),
  (10003, "MQIAMO_OPENS"),
  (4, "MQIAMO_CLOSES"),
  (17, "MQIAMO_PUTS"),
  (18, "MQIAMO_GETS"),
  (12, "MQIAMO_COMMITS"),
  (13, "MQIAMO_BACKOUTS"),
  (3603, "MQCACF_COMMAND_TIME"),
  (1001, "MQIACF_SEQUENCE_NUMBER"),
  (2001, "MQCA_Q_NAME_ALT"),
  (2003, "MQCA_PROCESS_NAME"),
  (2004, "MQCA_TRIGGER_DATA"),
  (2005, "MQCA_Q_DESC"),
  (2006, "MQCA_CREATION_DATE"),
  (2007, "MQCA_CREATION_TIME"),
  (2008, "MQCA_ALTERATION_DATE"),
  (2009, "MQCA_ALTERATION_TIME"),
  (2010, "MQCA_BACKOUT_REQ_Q_NAME"),
  (2011, "MQCA_INITIATION_Q_NAME"),
  (2012, "MQCA_DEAD_LETTER_Q_NAME"),
  (2013, "MQCA_DEF_XMIT_Q_NAME"),
  (2014, "MQCA_CF_STRUC_NAME"),
  (2015, "MQCA_QSG_NAME"),
  (2017, "MQCA_XCFGNAME"),
  (2018, "MQCA_XCFMNAME"),
  (2019, "MQCA_COMMAND_MQSC"),
  (2020, "MQCA_Q_MGR_IDENTIFIER"),
  (2021, "MQCA_CLUSTER_NAME"),
  (2022, "MQCA_CLUSTER_NAMELIST"),
  (2023, "MQCA_CLUSTER_Q_MGR_NAME"),
  (1, "MQIA_Q_TYPE_ALT"),
  (2, "MQIA_MAX_Q_DEPTH"),
  (4, "MQIA_BACKOUT_THRESHOLD"),
  (5, "MQIA_SHAREABILITY"),
  (6, "MQIA_DEF_SHAREABILITY"),
  (7, "MQIA_HARDEN_GET_BACKOUT"),
  (8, "MQIA_MSG_DELIVERY_SEQUENCE"),
  (9, "MQIA_RETENTION_INTERVAL"),
  (10, "MQIA_Q_DEPTH_HIGH_EVENT"),
  (11, "MQIA_Q_DEPTH_LOW_EVENT"),
  (12, "MQIA_Q_SERVICE_INTERVAL_EVENT"),
  (13, "MQIA_Q_DEPTH_MAX_EVENT"),
  (14, "MQIA_CURRENT_Q_DEPTH_ALT"),
  (15, "MQIA_OPEN_INPUT_COUNT_ALT"),
  (16, "MQIA_OPEN_OUTPUT_COUNT_ALT"),
  (17, "MQIA_HIGH_Q_DEPTH_ALT"),
  (18, "MQIA_MSG_ENQ_COUNT_ALT"),
  (19, "MQIA_MSG_DEQ_COUNT_ALT"),
  (1501, "MQIACH_CHANNEL_TYPE"),
  (1502, "MQIACH_TRANSPORT_TYPE"),
  (1503, "MQIACH_DATA_COUNT"),
  (1504, "MQIACH_NAME_COUNT"),
  (1505, "MQIACH_MAX_MSG_LENGTH"),
  (1506, "MQIACH_BATCH_SIZE"),
  (1507, "MQIACH_BATCH_INTERVAL"),
  (1508, "MQIACH_LONG_RETRY_COUNT"),
  (1509, "MQIACH_LONG_RETRY_INTERVAL"),
  (1510, "MQIACH_SHORT_RETRY_COUNT"),
  (1511, "MQIACH_SHORT_RETRY_INTERVAL"),
  (1512, "MQIACH_DISC_INTERVAL"),
  (1513, "MQIACH_THRESHOLD"),
  (1514, "MQIACH_PRIORITY"),
  (1515, "MQIACH_DATA_CONVERSION")
]

/-- `PCFParser.get_parameter_name`: resolve a numeric parameter id to its
    canonical name, synthesizing `UNKNOWN_PARAM_<id>_0x<8 hex digits>` for
    ids outside the table. -/
def getParameterName (paramId : Nat) : String :=
  (pyDictGet pcfParamNames paramId).getD
    ("UNKNOWN_PARAM_" ++ toString paramId ++ "_0x" ++ hex8Upper paramId)

/-- `mq_constants.get_parameter_name`, over `PARAMETER_NAMES`. -/
def getParameterNameConstants (paramId : Nat) : String :=
  (pyDictGet parameterNamesConstants paramId).getD
    ("UNKNOWN_PARAM_" ++ toString paramId ++ "_0x" ++ hex8Upper paramId)

/-! ## Header decoding (`PCFParser._parse_pcf_header`) -/

/-- `PCFParser._determine_message_type`: structure type to message-kind
    string, with the raw value embedded for unknown types. -/
def determineMessageType (structureType : Nat) : String :=
  if structureType = 21 then "statistics"
  else if structureType = 22 then "accounting"
  else if structureType = 7 then "event"
  else if structureType = 1 then "command"
  else if structureType = 2 then "response"
  else if structureType = 11 then "report"
  else "unknown_type_" ++ toString structureType

/-- The decoded 36-byte PCF header: the dict built by
    `PCFParser._parse_pcf_header`, including the derived `message_type`
    key.  All nine wire fields are decoded with `>9L`, i.e. unsigned. -/
structure PCFHeader where
  structure_type : Nat
  structure_length : Nat
  version : Nat
  command : Nat
  message_seq_number : Nat
  control : Nat
  completion_code : Nat
  reason_code : Nat
  parameter_count : Nat
  message_type : String
deriving DecidableEq, Repr

/-- `PCFParser._parse_pcf_header`: unpack nine big-endian 32-bit values
    (`struct.unpack(">9L", header_bytes)` requires exactly 36 bytes;
    anything else raises `struct.error`, caught and turned into `None`). -/
def parsePcfHeader (headerBytes : List Nat) : Option PCFHeader :=
  if headerBytes.length = 36 then
    some
      { structure_type := be32At headerBytes 0
        structure_length := be32At headerBytes 4
        version := be32At headerBytes 8
        command := be32At headerBytes 12
        message_seq_number := be32At headerBytes 16
        control := be32At headerBytes 20
        completion_code := be32At headerBytes 24
        reason_code := be32At headerBytes 28
        parameter_count := be32At headerBytes 32
        message_type := determineMessageType (be32At headerBytes 0) }
  else none

/-! ## Parameter decoding (`PCFParser._parse_pcf_parameters` etc.) -/

/-- The `value` entry of a decoded parameter dict: an `int`, a `str`
    (including hex-encoded byte strings and placeholder texts), or a list
    of ints. -/
inductive ParamValue where
  | int : Nat → ParamValue
  | str : String → ParamValue
  | list : List Nat → ParamValue
deriving DecidableEq, Repr

/-- A decoded parameter record: the dict built by
    `PCFParser._parse_single_parameter`. -/
structure PCFParameter where
  parameter_id : Nat
  parameter_type : Nat
  parameter_name : String
  value : ParamValue
  total_length : Nat
deriving DecidableEq, Repr

/-- `PCFParser._parse_integer_parameter`: 8-byte sub-header plus a 4-byte
    value; truncated buffers yield value 0 but still consume 12. -/
def parseIntegerParameter (paramBytes : List Nat) : ParamValue × Nat :=
  if 12 ≤ paramBytes.length then
    (.int (be32At paramBytes 8), 12)
  else
    (.int 0, 12)

/-- `PCFParser._parse_string_parameter`: 4-byte length then text, decoded
    UTF-8 with Latin-1 fallback, trailing NULs stripped. -/
def parseStringParameter (paramBytes : List Nat) : ParamValue × Nat :=
  if 12 ≤ paramBytes.length then
    let strLength := be32At paramBytes 8
    let totalLength := 12 + strLength
    if totalLength ≤ paramBytes.length then
      (.str (rstripNull (pyDecodeUtf8Latin1 ((paramBytes.drop 12).take strLength))),
        totalLength)
    else (.str "", 12)
  else (.str "", 12)

/-- `PCFParser._parse_byte_string_parameter`: 4-byte length then raw
    bytes, rendered as lowercase hex. -/
def parseByteStringParameter (paramBytes : List Nat) : ParamValue × Nat :=
  if 12 ≤ paramBytes.length then
    let dataLength := be32At paramBytes 8
    let totalLength := 12 + dataLength
    if totalLength ≤ paramBytes.length then
      (.str (bytesHexLower ((paramBytes.drop 12).take dataLength)), totalLength)
    else (.str "", 12)
  else (.str "", 12)

/-- `PCFParser._parse_integer_list_parameter`: 4-byte count then that many
    4-byte values. -/
def parseIntegerListParameter (paramBytes : List Nat) : ParamValue × Nat :=
  if 12 ≤ paramBytes.length then
    let count := be32At paramBytes 8
    let totalLength := 12 + count * 4
    if totalLength ≤ paramBytes.length then
      (.list ((List.range count).map (fun i => be32At paramBytes (12 + i * 4))),
        totalLength)
    else (.list [], 12)
  else (.list [], 12)

/-- `PCFParser._parse_single_parameter`: 8-byte sub-header (id, type) then
    a type-dispatched body; unsupported types get a placeholder value and
    consume only the sub-header. -/
def parseSingleParameter (paramBytes : List Nat) : Option PCFParameter :=
  if paramBytes.length < 8 then none
  else
    let paramId := be32At paramBytes 0
    let paramType := be32At paramBytes 4
    let body : ParamValue × Nat :=
      if paramType = 3 then parseIntegerParameter paramBytes
      else if paramType = 4 then parseStringParameter paramBytes
      else if paramType = 9 then parseByteStringParameter paramBytes
      else if paramType = 5 then parseIntegerListParameter paramBytes
      else (.str ("unsupported_type_" ++ toString paramType), 8)
    some
      { parameter_id := paramId
        parameter_type := paramType
        parameter_name := getParameterName paramId
        value := body.1
        total_length := body.2 }

/-- The loop body of `PCFParser._parse_pcf_parameters`: up to `fuel` more
    iterations, current position `offset`. -/
def parseParamsGo (paramBytes : List Nat) : Nat → Nat → List PCFParameter
  | 0, _ => []
  | fuel + 1, offset =>
    if paramBytes.length < offset + 8 then []
    else
      match parseSingleParameter (paramBytes.drop offset) with
      | none => []
      | some p => p :: parseParamsGo paramBytes fuel (offset + p.total_length)

/-- `PCFParser._parse_pcf_parameters`: iterate `param_count` times,
    stopping early when fewer than 8 bytes remain or a record fails to
    parse. -/
def parsePcfParameters (paramBytes : List Nat) (paramCount : Nat) : List PCFParameter :=
  parseParamsGo paramBytes paramCount 0

/-- The dict returned by `PCFParser.parse_message`. -/
structure ParsedMessage where
  header : PCFHeader
  parameters : List PCFParameter
  message_size : Nat
deriving DecidableEq, Repr

/-- `PCFParser.parse_message`: reject buffers shorter than the 36-byte
    header, else decode the header and the parameter stream. -/
def parseMessage (message : List Nat) : Option ParsedMessage :=
  if message.length < 36 then none
  else
    match parsePcfHeader (message.take 36) with
    | none => none
    | some header =>
      some
        { header := header
          parameters := parsePcfParameters (message.drop 36) header.parameter_count
          message_size := message.length }

/-! ## Semantic extractors (`extract_queue_operations`,
`extract_connection_info`) -/

/-- The dict built by `PCFParser.extract_queue_operations`. -/
structure QueueOperations where
  queue_name : String := "unknown"
  get_count : Nat := 0
  put_count : Nat := 0
  browse_count : Nat := 0
  open_input_count : Nat := 0
  open_output_count : Nat := 0
  enqueue_count : Nat := 0
  dequeue_count : Nat := 0
  current_depth : Nat := 0
  max_depth : Nat := 0
  put_bytes : Nat := 0
  get_bytes : Nat := 0
  put_time : Nat := 0
  get_time : Nat := 0
  has_readers : Bool := false
  has_writers : Bool := false
deriving DecidableEq, Repr

/-- One pass of the parameter loop in `extract_queue_operations`: assign
    the value into the matching field when the name matches and the value
    has the expected dynamic type (`isinstance` checks in the source);
    otherwise leave the record unchanged. -/
def queueOpsStep (ops : QueueOperations) (p : PCFParameter) : QueueOperations :=
  match p.parameter_name, p.value with
  | "MQCA_Q_NAME", .str s => { ops with queue_name := pyStrip s }
  | "MQIA_GET_COUNT", .int v => { ops with get_count := v }
  | "MQIA_PUT_COUNT", .int v => { ops with put_count := v }
  | "MQIA_BROWSE_COUNT", .int v => { ops with browse_count := v }
  | "MQIA_OPEN_INPUT_COUNT", .int v => { ops with open_input_count := v }
  | "MQIA_OPEN_OUTPUT_COUNT", .int v => { ops with open_output_count := v }
  | "MQIA_MSG_ENQ_COUNT", .int v => { ops with enqueue_count := v }
  | "MQIA_MSG_DEQ_COUNT", .int v => { ops with dequeue_count := v }
  | "MQIA_CURRENT_Q_DEPTH", .int v => { ops with current_depth := v }
  | "MQIA_MAX_Q_DEPTH", .int v => { ops with max_depth := v }
  | "MQIA_PUT_BYTES", .int v => { ops with put_bytes := v }
  | "MQIA_GET_BYTES", .int v => { ops with get_bytes := v }
  | "MQIA_PUT_TIME", .int v => { ops with put_time := v }
  | "MQIA_GET_TIME", .int v => { ops with get_time := v }
  | _, _ => ops

/-- `PCFParser.extract_queue_operations`: single pass over the parameter
    list, then derive `has_readers` / `has_writers` from the counters. -/
def extractQueueOperations (parameters : List PCFParameter) : QueueOperations :=
  let ops := parameters.foldl queueOpsStep {}
  { ops with
    has_readers :=
      decide (0 < ops.get_count) || decide (0 < ops.browse_count) ||
        decide (0 < ops.open_input_count)
    has_writers :=
      decide (0 < ops.put_count) || decide (0 < ops.open_output_count) }

/-- `PCFParser._get_channel_type_name`. -/
def getChannelTypeName (channelType : Nat) : String :=
  if channelType = 1 then "SENDER"
  else if channelType = 2 then "SERVER"
  else if channelType = 3 then "RECEIVER"
  else if channelType = 4 then "REQUESTER"
  else if channelType = 5 then "CLIENT_CONNECTION"
  else if channelType = 6 then "SERVER_CONNECTION"
  else if channelType = 7 then "CLUSTER_RECEIVER"
  else if channelType = 8 then "CLUSTER_SENDER"
  else "UNKNOWN_CHANNEL_TYPE_" ++ toString channelType

/-- `PCFParser._get_transport_type_name`. -/
def getTransportTypeName (transportType : Nat) : String :=
  if transportType = 1 then "LU62"
  else if transportType = 2 then "TCP"
  else if transportType = 3 then "NETBIOS"
  else if transportType = 4 then "SPX"
  else if transportType = 5 then "DECnet"
  else if transportType = 6 then "UDP"
  else "UNKNOWN_TRANSPORT_" ++ toString transportType

/-- `PCFParser._get_channel_status_name`. -/
def getChannelStatusName (status : Nat) : String :=
  if status = 0 then "INACTIVE"
  else if status = 1 then "BINDING"
  else if status = 2 then "STARTING"
  else if status = 3 then "RUNNING"
  else if status = 4 then "STOPPING"
  else if status = 5 then "RETRYING"
  else if status = 6 then "STOPPED"
  else if status = 7 then "REQUESTING"
  else if status = 8 then "PAUSED"
  else if status = 13 then "INITIALIZING"
  else "UNKNOWN_STATUS_" ++ toString status

/-- The dict built by `PCFParser.extract_connection_info`. -/
structure ConnectionInfo where
  channel_name : String := "unknown"
  connection_name : String := "unknown"
  application_name : String := "unknown"
  user_id : String := "unknown"
  connect_count : Nat := 0
  disconnect_count : Nat := 0
  channel_type : String := "unknown"
  transport_type : String := "unknown"
  channel_status : String := "unknown"
deriving DecidableEq, Repr

/-- One pass of the parameter loop in `extract_connection_info`. -/
def connInfoStep (info : ConnectionInfo) (p : PCFParameter) : ConnectionInfo :=
  match p.parameter_name, p.value with
  | "MQCACH_CHANNEL_NAME", .str s => { info with channel_name := pyStrip s }
  | "MQCACH_CONNECTION_NAME", .str s => { info with connection_name := pyStrip s }
  | "MQCA_APPL_NAME", .str s => { info with application_name := pyStrip s }
  | "MQCACH_USER_ID", .str s => { info with user_id := pyStrip s }
  | "MQIA_CONNECT_COUNT", .int v => { info with connect_count := v }
  | "MQIA_DISC_COUNT", .int v => { info with disconnect_count := v }
  | "MQIACH_CHANNEL_TYPE", .int v => { info with channel_type := getChannelTypeName v }
  | "MQIACH_TRANSPORT_TYPE", .int v => { info with transport_type := getTransportTypeName v }
  | "MQIACH_CHANNEL_STATUS", .int v => { info with channel_status := getChannelStatusName v }
  | _, _ => info

/-- `PCFParser.extract_connection_info`: single pass over the parameter
    list. -/
def extractConnectionInfo (parameters : List PCFParameter) : ConnectionInfo :=
  parameters.foldl connInfoStep {}

/-! ## The spec's signed reading of header fields

Written from the spec's words ("nine consecutive 4-byte big-endian
*signed* integers"), for comparison against the source's `>9L` unsigned
decode.  This is the one definition here that follows the spec, not the
source. -/

/-- Two's-complement reading of an unsigned 32-bit value, as the spec's
    "signed" field interpretation prescribes. -/
def toSigned32 (n : Nat) : Int :=
  if n < 2147483648 then (n : Int) else (n : Int) - 4294967296

/-! ## Tracked field names of the semantic extractors -/

/-- The parameter names `extract_queue_operations` assigns from
    integer-typed values. -/
def queueOpsIntFields : List String :=
  ["MQIA_GET_COUNT", "MQIA_PUT_COUNT", "MQIA_BROWSE_COUNT",
   "MQIA_OPEN_INPUT_COUNT", "MQIA_OPEN_OUTPUT_COUNT", "MQIA_MSG_ENQ_COUNT",
   "MQIA_MSG_DEQ_COUNT", "MQIA_CURRENT_Q_DEPTH", "MQIA_MAX_Q_DEPTH",
   "MQIA_PUT_BYTES", "MQIA_GET_BYTES", "MQIA_PUT_TIME", "MQIA_GET_TIME"]

/-- The parameter names `extract_queue_operations` assigns from
    string-typed values. -/
def queueOpsStrFields : List String := ["MQCA_Q_NAME"]

/-- The parameter names `extract_connection_info` assigns from
    integer-typed values. -/
def connInfoIntFields : List String :=
  ["MQIA_CONNECT_COUNT", "MQIA_DISC_COUNT", "MQIACH_CHANNEL_TYPE",
   "MQIACH_TRANSPORT_TYPE", "MQIACH_CHANNEL_STATUS"]

/-- The parameter names `extract_connection_info` assigns from
    string-typed values. -/
def connInfoStrFields : List String :=
  ["MQCACH_CHANNEL_NAME", "MQCACH_CONNECTION_NAME", "MQCA_APPL_NAME",
   "MQCACH_USER_ID"]

/-- Does the `value` entry hold a Python `int`? -/
def isIntValue : ParamValue → Bool
  | .int _ => true
  | _ => false

/-- Does the `value` entry hold a Python `str`? -/
def isStrValue : ParamValue → Bool
  | .str _ => true
  | _ => false

/-- A padding-style record used to exercise the decoder on long streams:
    id 0, declared type 99 (unsupported), 8 bytes on the wire. -/
def unsupportedFiller : List Nat := [0, 0, 0, 0, 0, 0, 0, 99]

/-- The 104-byte buffer of the repository's own corruption test
    (`test_core_functionality.test_corruption_detection`):
    `b"\x16\x00\x00\x00" + b"\x00" * 100`. -/
def corruptionTestBuffer : List Nat := 22 :: 0 :: 0 :: 0 :: List.replicate 100 0

/-- A 36-byte header whose first field has the top bit set:
    `b"\xff\xff\xff\xff" + b"\x00" * 32`. -/
def topBitHeaderBuffer : List Nat := List.replicate 4 255 ++ List.replicate 32 0

/-- The sixteen uppercase hexadecimal digit characters. -/
def hexUpperChars : List Char :=
  ['0', '1', '2', '3', '4', '5', '6', '7', '8', '9', 'A', 'B', 'C', 'D', 'E', 'F']

/-- The parameter ids mapped by both table revisions but to different
    names: walk the `pcf_parser` table and compare each id against the
    `mq_constants` table. -/
def tableConflicts : List (Nat × String × String) :=
  pcfParamNames.filterMap (fun e =>
    match pyDictGet pcfParamNames e.1, pyDictGet parameterNamesConstants e.1 with
    | some n1, some n2 => if n1 = n2 then none else some (e.1, n1, n2)
    | _, _ => none)

/-! ## The corruption-tolerant identity extractor
(`src/enhanced_pcf_extractor.py`, class `EnhancedPCFExtractor`) -/

/-- A byte of the regex character class `[a-zA-Z0-9_\-\.]` used by the
    filename patterns. -/
def isWordByte (b : Nat) : Bool :=
  (65 ≤ b && b ≤ 90) || (97 ≤ b && b ≤ 122) || (48 ≤ b && b ≤ 57) ||
    b = 95 || b = 45 || b = 46

/-- A byte of the regex class `\d`. -/
def isDigitByte (b : Nat) : Bool := 48 ≤ b && b ≤ 57

/-- Bytes of `".exe"`. -/
def exeSuffixBytes : List Nat := [46, 101, 120, 101]

/-- Bytes of `".jar"`. -/
def jarSuffixBytes : List Nat := [46, 106, 97, 114]

/-- Bytes of `".py"`. -/
def pySuffixBytes : List Nat := [46, 112, 121]

/-- Bytes of `b"amqsput\x00"`. -/
def amqsputPatBytes : List Nat := [97, 109, 113, 115, 112, 117, 116, 0]

/-- Bytes of `b"amqsget\x00"`. -/
def amqsgetPatBytes : List Nat := [97, 109, 113, 115, 103, 101, 116, 0]

/-- Bytes of `b"generate_mq_activity.py\x00"`. -/
def generatePatBytes : List Nat :=
  [103, 101, 110, 101, 114, 97, 116, 101, 95, 109, 113, 95, 97, 99, 116,
   105, 118, 105, 116, 121, 46, 112, 121, 0]

/-- Bytes of `b"reader_writer_demo.py\x00"`. -/
def readerWriterPatBytes : List Nat :=
  [114, 101, 97, 100, 101, 114, 95, 119, 114, 105, 116, 101, 114, 95, 100,
   101, 109, 111, 46, 112, 121, 0]

/-- Match of the regex `([class]+<suffix>)\x00` anchored at the start of
    `l` (e.g. `rb"([a-zA-Z0-9_\-\.]+\.exe)\x00"`).  The group and the
    literal suffix both consist of class bytes, and the NUL must follow
    the group, so the group is forced to be the whole maximal class run at
    this position; the run must end with the suffix, keep at least one
    class byte before it, and be followed by a NUL. -/
def suffixClassMatchAt (suffixBytes l : List Nat) : Option (List Nat) :=
  let run := l.takeWhile isWordByte
  if suffixBytes.length + 1 ≤ run.length && suffixBytes.isSuffixOf run &&
      l.getD run.length 1 = 0 then
    some run
  else none

/-- `re.search` of the suffix-class pattern: leftmost match. -/
def suffixClassSearch (suffixBytes : List Nat) : List Nat → Option (List Nat)
  | [] => none
  | b :: rest =>
    match suffixClassMatchAt suffixBytes (b :: rest) with
    | some g => some g
    | none => suffixClassSearch suffixBytes rest

/-- `re.search` of a literal byte pattern (used for the group-less
    patterns such as `rb"amqsput\x00"`): does the pattern occur? -/
def literalSearch (pat : List Nat) : List Nat → Bool
  | [] => decide (pat = [])
  | b :: rest => pat.isPrefixOf (b :: rest) || literalSearch pat rest

/-- Match of the connection pattern
    `rb"(\d{1,3}\.\d{1,3}\.\d{1,3}\.\d{1,3})[\(\:](\d+)[\)\x00]?"`
    anchored at the start of `l`, returning the two groups (address bytes,
    port bytes).  Each greedy `\d{1,3}` must consume its entire digit run
    (one to three digits) so that the following literal can match, which
    makes the backtracking deterministic; the trailing `[\)\x00]?` is
    optional and does not affect the groups. -/
def connMatchAt (l : List Nat) : Option (List Nat × List Nat) :=
  let d1 := (l.takeWhile isDigitByte).length
  if 1 ≤ d1 && d1 ≤ 3 && l.getD d1 0 = 46 then
    let l2 := l.drop (d1 + 1)
    let d2 := (l2.takeWhile isDigitByte).length
    if 1 ≤ d2 && d2 ≤ 3 && l2.getD d2 0 = 46 then
      let l3 := l2.drop (d2 + 1)
      let d3 := (l3.takeWhile isDigitByte).length
      if 1 ≤ d3 && d3 ≤ 3 && l3.getD d3 0 = 46 then
        let l4 := l3.drop (d3 + 1)
        let d4 := (l4.takeWhile isDigitByte).length
        if 1 ≤ d4 && d4 ≤ 3 && (l4.getD d4 0 = 40 || l4.getD d4 0 = 58) then
          let l5 := l4.drop (d4 + 1)
          let port := l5.takeWhile isDigitByte
          if 1 ≤ port.length then
            some (l.take (d1 + 1 + d2 + 1 + d3 + 1 + d4), port)
          else none
        else none
      else none
    else none
  else none

/-- `re.search` of the connection pattern: leftmost match. -/
def connSearch : List Nat → Option (List Nat × List Nat)
  | [] => none
  | b :: rest =>
    match connMatchAt (b :: rest) with
    | some r => some r
    | none => connSearch rest

/-- Match of the address pattern
    `rb"(\d{1,3}\.\d{1,3}\.\d{1,3}\.\d{1,3})"` anchored at the start of
    `l`; the unconstrained last octet greedily takes up to three
    digits. -/
def ipMatchAt (l : List Nat) : Option (List Nat) :=
  let d1 := (l.takeWhile isDigitByte).length
  if 1 ≤ d1 && d1 ≤ 3 && l.getD d1 0 = 46 then
    let l2 := l.drop (d1 + 1)
    let d2 := (l2.takeWhile isDigitByte).length
    if 1 ≤ d2 && d2 ≤ 3 && l2.getD d2 0 = 46 then
      let l3 := l2.drop (d2 + 1)
      let d3 := (l3.takeWhile isDigitByte).length
      if 1 ≤ d3 && d3 ≤ 3 && l3.getD d3 0 = 46 then
        let l4 := l3.drop (d3 + 1)
        let d4 := min 3 (l4.takeWhile isDigitByte).length
        if 1 ≤ d4 then
          some (l.take (d1 + 1 + d2 + 1 + d3 + 1 + d4))
        else none
      else none
    else none
  else none

/-- `re.search` of the address pattern: leftmost match. -/
def ipSearch : List Nat → Option (List Nat)
  | [] => none
  | b :: rest =>
    match ipMatchAt (b :: rest) with
    | some r => some r
    | none => ipSearch rest

/-- UTF-8 encoding of one character (for `str.encode()`). -/
def utf8EncodeChar (c : Char) : List Nat :=
  let n := c.toNat
  if n < 128 then [n]
  else if n < 2048 then [192 + n / 64, 128 + n % 64]
  else if n < 65536 then [224 + n / 4096, 128 + (n / 64) % 64, 128 + n % 64]
  else [240 + n / 262144, 128 + (n / 4096) % 64, 128 + (n / 64) % 64, 128 + n % 64]

/-- `str.encode()` (UTF-8). -/
def utf8Encode (s : String) : List Nat := s.data.flatMap utf8EncodeChar

/-- The `bytes.rstrip(b"\x00")` step of `_extract_string_parameter`. -/
def dropTrailingZeroBytes (l : List Nat) : List Nat :=
  (l.reverse.dropWhile (· = 0)).reverse

/-- `EnhancedPCFExtractor._extract_string_parameter`: strip trailing NUL
    bytes, then decode with `errors="ignore"` and strip whitespace; `None`
    when nothing remains before decoding. -/
def extractStringParameter (paramData : List Nat) : Option String :=
  let clean := dropTrailingZeroBytes paramData
  if 0 < clean.length then
    some (pyStrip (String.mk (utf8DecodeIgnore clean)))
  else none

/-- The partial dict a tier returns: `application_name`, `client_ip`,
    `extraction_method` and `raw_data_found` are always present;
    `connection_name` is only added when an address was found. -/
structure TierInfo where
  application_name : String := "unknown"
  client_ip : String := "unknown"
  connection_name : Option String := none
  extraction_method : String
  raw_data_found : Bool := false
deriving DecidableEq, Repr

/-- The full result dict of `extract_application_info`. -/
structure AppInfo where
  application_name : String := "unknown"
  application_tag : String := "unknown"
  client_ip : String := "unknown"
  connection_name : String := "unknown"
  channel_name : String := "unknown"
  user_id : String := "unknown"
  extraction_method : String := "none"
  raw_data_found : Bool := false
deriving DecidableEq, Repr

/-- `info.update(tier_dict)`: overwrite the keys the tier dict carries. -/
def applyTier (info : AppInfo) (t : TierInfo) : AppInfo :=
  { info with
    application_name := t.application_name
    client_ip := t.client_ip
    connection_name := t.connection_name.getD info.connection_name
    extraction_method := t.extraction_method
    raw_data_found := t.raw_data_found }

/-- The record walk of `_parse_structured_pcf`: from `offset`, read an
    8-byte sub-header (`param_type`, `param_length`), stop when fewer than
    9 bytes remain (`while offset < len(data) - 8`) or the declared length
    is shorter than 8 or longer than the remainder; pick up
    application-name ids (2001, 3001) and connection-name ids (2003, 3003,
    1269), extracting an address from the connection value.  The fuel
    (list length suffices, as each step advances by at least 8) only
    forces termination. -/
def structuredGo (data : List Nat) : Nat → Nat → TierInfo → TierInfo
  | 0, _, info => info
  | fuel + 1, offset, info =>
    if offset < data.length - 8 then
      let paramType := be32At data offset
      let paramLength := be32At data (offset + 4)
      if paramLength < 8 || data.length - offset < paramLength then info
      else
        let paramData := (data.drop (offset + 8)).take (paramLength - 8)
        let info2 :=
          if paramType = 2001 || paramType = 3001 then
            match extractStringParameter paramData with
            | some appName =>
              if appName ≠ "" && appName ≠ "unknown" then
                { info with application_name := appName, raw_data_found := true }
              else info
            | none => info
          else if paramType = 2003 || paramType = 3003 || paramType = 1269 then
            match extractStringParameter paramData with
            | some connName =>
              if connName ≠ "" && connName ≠ "unknown" then
                match ipSearch (utf8Encode connName) with
                | some ipBytes =>
                  { info with
                    client_ip := String.mk (utf8DecodeIgnore ipBytes)
                    connection_name := some connName
                    raw_data_found := true }
                | none => info
              else info
            | none => info
          else info
        structuredGo data fuel (offset + paramLength) info2
    else info

/-- `EnhancedPCFExtractor._parse_structured_pcf`. -/
def parseStructuredPcf (data : List Nat) : TierInfo :=
  structuredGo data data.length 36 { extraction_method := "structured_pcf" }

/-- The application-name pattern chain of `_extract_by_patterns`, in
    source order: the three grouped filename-suffix patterns, then the
    four literal patterns.  A literal pattern has no capture group, so a
    hit there makes `match.group(1)` raise `IndexError` (`some none`);
    `none` means no pattern matched. -/
def appPatternSearch (data : List Nat) : Option (Option (List Nat)) :=
  match suffixClassSearch exeSuffixBytes data with
  | some g => some (some g)
  | none =>
    match suffixClassSearch jarSuffixBytes data with
    | some g => some (some g)
    | none =>
      match suffixClassSearch pySuffixBytes data with
      | some g => some (some g)
      | none =>
        if literalSearch amqsputPatBytes data then some none
        else if literalSearch amqsgetPatBytes data then some none
        else if literalSearch generatePatBytes data then some none
        else if literalSearch readerWriterPatBytes data then some none
        else none

/-- `EnhancedPCFExtractor._extract_by_patterns`; `Except.error` models the
    `IndexError` a group-less pattern hit raises out of the method. -/
def extractByPatterns (data : List Nat) : Except Unit TierInfo :=
  match appPatternSearch data with
  | some none => .error ()
  | appResult =>
    let info1 : TierInfo :=
      match appResult with
      | some (some g) =>
        { extraction_method := "pattern_matching",
          application_name := pyStrip (String.mk (utf8DecodeIgnore g)),
          raw_data_found := true }
      | _ => { extraction_method := "pattern_matching" }
    match connSearch data with
    | some (ipBytes, portBytes) =>
      let ip := String.mk (utf8DecodeIgnore ipBytes)
      let port := String.mk (utf8DecodeIgnore portBytes)
      .ok { info1 with
        client_ip := ip
        connection_name := some (ip ++ "(" ++ port ++ ")")
        raw_data_found := true }
    | none =>
      match ipSearch data with
      | some ipBytes =>
        .ok { info1 with
          client_ip := String.mk (utf8DecodeIgnore ipBytes)
          raw_data_found := true }
      | none => .ok info1

/-- A character of the class `[a-zA-Z0-9_\-\.]`. -/
def isWordChar (c : Char) : Bool := isWordByte c.toNat

/-- A character of `\d`. -/
def isDigitChar (c : Char) : Bool := isDigitByte c.toNat

/-- Case-insensitive "ends with" on characters (`re.IGNORECASE`). -/
def ciEndsWith (suffix l : List Char) : Bool :=
  (suffix.map Char.toLower).isSuffixOf (l.map Char.toLower)

/-- Greedy group length for a text pattern `([class]+<suffix>)` with
    `re.IGNORECASE` at a given run: the longest prefix of the run that
    ends (case-insensitively) with the suffix and keeps at least one class
    character before it. -/
def lastCiSuffixLen (suffix run : List Char) : Option Nat :=
  ((List.range (run.length + 1)).reverse).find?
    (fun g => decide (suffix.length + 1 ≤ g) && ciEndsWith suffix (run.take g))

/-- Match of `([class]+<suffix>)` (IGNORECASE) anchored at the start of
    the text. -/
def charSuffixMatchAt (suffix l : List Char) : Option (List Char) :=
  let run := l.takeWhile isWordChar
  match lastCiSuffixLen suffix run with
  | some g => some (run.take g)
  | none => none

/-- `re.search` of `([class]+<suffix>)` (IGNORECASE): leftmost match. -/
def charSuffixSearch (suffix : List Char) : List Char → Option (List Char)
  | [] => none
  | c :: rest =>
    match charSuffixMatchAt suffix (c :: rest) with
    | some g => some g
    | none => charSuffixSearch suffix rest

/-- `re.search` of a literal text pattern with `re.IGNORECASE`, returning
    the matched slice (the capture group). -/
def ciFindLiteral (pat : List Char) : List Char → Option (List Char)
  | [] => if pat = [] then some [] else none
  | c :: rest =>
    if (pat.map Char.toLower).isPrefixOf ((c :: rest).map Char.toLower) then
      some ((c :: rest).take pat.length)
    else ciFindLiteral pat rest

/-- Match of `(\d{1,3}\.\d{1,3}\.\d{1,3}\.\d{1,3})` on text, anchored. -/
def charIpMatchAt (l : List Char) : Option (List Char) :=
  let d1 := (l.takeWhile isDigitChar).length
  if 1 ≤ d1 && d1 ≤ 3 && decide (l.getD d1 'x' = '.') then
    let l2 := l.drop (d1 + 1)
    let d2 := (l2.takeWhile isDigitChar).length
    if 1 ≤ d2 && d2 ≤ 3 && decide (l2.getD d2 'x' = '.') then
      let l3 := l2.drop (d2 + 1)
      let d3 := (l3.takeWhile isDigitChar).length
      if 1 ≤ d3 && d3 ≤ 3 && decide (l3.getD d3 'x' = '.') then
        let l4 := l3.drop (d3 + 1)
        let d4 := min 3 (l4.takeWhile isDigitChar).length
        if 1 ≤ d4 then
          some (l.take (d1 + 1 + d2 + 1 + d3 + 1 + d4))
        else none
      else none
    else none
  else none

/-- `re.search` of the address pattern on text: leftmost match. -/
def charIpSearch : List Char → Option (List Char)
  | [] => none
  | c :: rest =>
    match charIpMatchAt (c :: rest) with
    | some r => some r
    | none => charIpSearch rest

/-- The application patterns of `_brute_force_extraction`, searched with
    `re.IGNORECASE` over the decoded text, in source order; all seven have
    a capture group there. -/
def bruteAppSearch (text : List Char) : Option (List Char) :=
  match charSuffixSearch ".exe".data text with
  | some g => some g
  | none =>
    match charSuffixSearch ".jar".data text with
    | some g => some g
    | none =>
      match charSuffixSearch ".py".data text with
      | some g => some g
      | none =>
        match ciFindLiteral "amqsput".data text with
        | some g => some g
        | none =>
          match ciFindLiteral "amqsget".data text with
          | some g => some g
          | none =>
            match ciFindLiteral "generate_mq_activity".data text with
            | some g => some g
            | none => ciFindLiteral "reader_writer_demo".data text

/-- `EnhancedPCFExtractor._brute_force_extraction`: decode the raw buffer
    (`errors="ignore"`) and re-apply the filename and address patterns on
    the text. -/
def bruteForceExtraction (data : List Nat) : TierInfo :=
  let text := utf8DecodeIgnore data
  let info1 : TierInfo :=
    match bruteAppSearch text with
    | some g =>
      { extraction_method := "brute_force",
        application_name := String.mk g, raw_data_found := true }
    | none => { extraction_method := "brute_force" }
  match charIpSearch text with
  | some ip =>
    { info1 with client_ip := String.mk ip, raw_data_found := true }
  | none => info1

/-- `EnhancedPCFExtractor.extract_application_info`: structured tier, then
    pattern tier, then brute force; the surrounding `except Exception`
    returns the untouched base dict when the pattern tier raises. -/
def extractApplicationInfo (messageData : List Nat) : AppInfo :=
  let base : AppInfo := {}
  let structured := parseStructuredPcf messageData
  if structured.raw_data_found then applyTier base structured
  else
    match extractByPatterns messageData with
    | .error _ => base
    | .ok patternInfo =>
      if patternInfo.raw_data_found then applyTier base patternInfo
      else applyTier base (bruteForceExtraction messageData)

/-- ASCII reading of a byte list as a string. -/
def asciiStr (l : List Nat) : String := String.mk (l.map Char.ofNat)

/-- A byte of an executable base name as used in Scenario E:
    a letter, underscore or hyphen (digit- and dot-free so the name
    cannot collide with the address patterns). -/
def isNameByte (b : Nat) : Bool :=
  (65 ≤ b && b ≤ 90) || (97 ≤ b && b ≤ 122) || b = 95 || b = 45

/-- The counterexample buffer `b"app.exe192.168.1.100(1414)"` — an
    executable filename *immediately* followed by a parenthesized-port
    address, with no NUL terminator in between. -/
def noNulBuffer : List Nat :=
  [97, 112, 112, 46, 101, 120, 101,
   49, 57, 50, 46, 49, 54, 56, 46, 49, 46, 49, 48, 48, 40, 49, 52, 49, 52, 41]

/-- The family of Scenario E buffers: NUL-terminated executable filename,
    then a parenthesized-port dotted-quad address. -/
def scenarioEBuffer (nameBytes o1 o2 o3 o4 port : List Nat) : List Nat :=
  (nameBytes ++ exeSuffixBytes) ++
    0 :: (o1 ++ 46 :: (o2 ++ 46 :: (o3 ++ 46 :: (o4 ++ 40 :: (port ++ [41])))))

/-! ## Supporting lemmas -/

theorem parseParamsGo_length_le (paramBytes : List Nat) :
    ∀ fuel offset, (parseParamsGo paramBytes fuel offset).length ≤ fuel := by
  intro fuel
  induction fuel with
  | zero => intro offset; simp [parseParamsGo]
  | succ n ih =>
    intro offset
    unfold parseParamsGo
    split
    · simp
    · cases h : parseSingleParameter (paramBytes.drop offset) with
      | none => simp
      | some p => simpa using ih (offset + p.total_length)

theorem parseParamsGo_shift (pre rest : List Nat) :
    ∀ fuel off,
      parseParamsGo (pre ++ rest) fuel (pre.length + off) =
        parseParamsGo rest fuel off := by
  intro fuel
  induction fuel with
  | zero => intro off; simp [parseParamsGo]
  | succ n ih =>
    intro off
    unfold parseParamsGo
    have hdrop : (pre ++ rest).drop (pre.length + off) = rest.drop off :=
      List.drop_append off
    have hlen : ((pre ++ rest).length < pre.length + off + 8) ↔
        (rest.length < off + 8) := by
      rw [List.length_append]; omega
    rw [hdrop]
    by_cases hshort : rest.length < off + 8
    · rw [if_pos (hlen.mpr hshort), if_pos hshort]
    · rw [if_neg (fun hc => hshort (hlen.mp hc)), if_neg hshort]
      cases parseSingleParameter (rest.drop off) with
      | none => rfl
      | some p =>
        dsimp only
        have harith : pre.length + off + p.total_length =
            pre.length + (off + p.total_length) := by omega
        rw [harith, ih (off + p.total_length)]

theorem parseParamsGo_nil (fuel : Nat) : parseParamsGo [] fuel 0 = [] := by
  cases fuel <;> simp [parseParamsGo]

/-- Decoding a stream of `n` eight-byte filler records under a declared
    count of at least `n` yields exactly `n` records. -/
theorem parseParams_filler_length :
    ∀ n c, n ≤ c →
      (parseParamsGo ((List.replicate n unsupportedFiller).flatten) c 0).length = n := by
  intro n
  induction n with
  | zero => intro c _; simp [parseParamsGo_nil]
  | succ m ih =>
    intro c hc
    cases c with
    | zero => omega
    | succ c0 =>
      have hflat : (List.replicate (m + 1) unsupportedFiller).flatten =
          unsupportedFiller ++ (List.replicate m unsupportedFiller).flatten := by
        simp [List.replicate, List.flatten]
      rw [hflat]
      set rest := (List.replicate m unsupportedFiller).flatten with hrest
      have hlen : (unsupportedFiller ++ rest).length = 8 + rest.length := by
        simp [unsupportedFiller]; omega
      have hsingle :
          parseSingleParameter ((unsupportedFiller ++ rest).drop 0) = some
            { parameter_id := 0, parameter_type := 99,
              parameter_name := getParameterName 0,
              value := .str ("unsupported_type_" ++ toString 99),
              total_length := 8 } := by
        show parseSingleParameter (unsupportedFiller ++ rest) = _
        have hne : ¬ (unsupportedFiller ++ rest).length < 8 := by
          rw [hlen]; omega
        unfold parseSingleParameter
        rw [if_neg hne]
        have h0 : be32At (unsupportedFiller ++ rest) 0 = 0 := by
          show be32At (0 :: 0 :: 0 :: 0 :: 0 :: 0 :: 0 :: 99 :: rest) 0 = 0
          simp [be32At, List.getD]
        have h4 : be32At (unsupportedFiller ++ rest) 4 = 99 := by
          show be32At (0 :: 0 :: 0 :: 0 :: 0 :: 0 :: 0 :: 99 :: rest) 4 = 99
          simp [be32At, List.getD]
        simp only [h0, h4]
        norm_num
      unfold parseParamsGo
      rw [if_neg (by rw [hlen]; omega : ¬ (unsupportedFiller ++ rest).length < 0 + 8)]
      rw [hsingle]
      have hshift : parseParamsGo (unsupportedFiller ++ rest) c0 (0 + 8) =
          parseParamsGo rest c0 0 := by
        have h8 : (0 : Nat) + 8 = unsupportedFiller.length + 0 := by
          simp [unsupportedFiller]
        rw [h8, parseParamsGo_shift]
      simp only [List.length_cons, hshift]
      rw [ih c0 (by omega)]

/-- Every record emitted by `_parse_single_parameter` consumes at least
    the 8-byte sub-header. -/
theorem parseSingleParameter_total_ge (pb : List Nat) (p : PCFParameter)
    (h : parseSingleParameter pb = some p) : 8 ≤ p.total_length := by
  unfold parseSingleParameter at h
  split at h
  · exact absurd h (by simp)
  · simp only [Option.some.injEq] at h
    subst h
    dsimp only
    unfold parseIntegerParameter parseStringParameter parseByteStringParameter
      parseIntegerListParameter
    split_ifs <;> dsimp only <;>
      first
        | omega
        | (split_ifs <;> dsimp only <;> omega)

/-- Every record in a decoded stream consumes at least 8 bytes. -/
theorem parseParamsGo_mem_total_ge (paramBytes : List Nat) :
    ∀ fuel offset p, p ∈ parseParamsGo paramBytes fuel offset →
      8 ≤ p.total_length := by
  intro fuel
  induction fuel with
  | zero => intro offset p hp; simp [parseParamsGo] at hp
  | succ n ih =>
    intro offset p hp
    unfold parseParamsGo at hp
    split at hp
    · simp at hp
    · cases hs : parseSingleParameter (paramBytes.drop offset) with
      | none => rw [hs] at hp; simp at hp
      | some q =>
        rw [hs] at hp
        rcases List.mem_cons.mp hp with rfl | hmem
        · exact parseSingleParameter_total_ge _ _ hs
        · exact ih _ p hmem

theorem getD_take (l : List Nat) (n i : Nat) (h : i < n) :
    (l.take n).getD i 0 = l.getD i 0 := by
  simp [List.getD_eq_getElem?_getD, List.getElem?_take, h]

theorem be32At_take36 (l : List Nat) (k : Nat) (h : k + 3 < 36) :
    be32At (l.take 36) k = be32At l k := by
  unfold be32At
  rw [getD_take _ _ _ (by omega), getD_take _ _ _ (by omega),
    getD_take _ _ _ (by omega), getD_take _ _ _ (by omega)]

theorem getD_lt_256 (l : List Nat) (hb : ∀ b ∈ l, b < 256) (i : Nat) :
    l.getD i 0 < 256 := by
  by_cases hi : i < l.length
  · exact hb _ (by rw [List.getD_eq_getElem l 0 hi]; exact List.getElem_mem hi)
  · rw [List.getD_eq_getElem?_getD, List.getElem?_eq_none (by omega : l.length ≤ i)]
    simp

theorem be32At_lt (l : List Nat) (hb : ∀ b ∈ l, b < 256) (k : Nat) :
    be32At l k < 4294967296 := by
  unfold be32At
  have h0 := getD_lt_256 l hb k
  have h1 := getD_lt_256 l hb (k + 1)
  have h2 := getD_lt_256 l hb (k + 2)
  have h3 := getD_lt_256 l hb (k + 3)
  omega

theorem queueOpsStep_ignored (ops : QueueOperations) (p : PCFParameter)
    (h : (p.parameter_name ∈ queueOpsIntFields ∧ isIntValue p.value = false) ∨
      (p.parameter_name ∈ queueOpsStrFields ∧ isStrValue p.value = false)) :
    queueOpsStep ops p = ops := by
  obtain ⟨pid, pty, pname, pval, plen⟩ := p
  rcases h with ⟨h1, h2⟩ | ⟨h1, h2⟩
  · simp only [queueOpsIntFields, List.mem_cons, List.not_mem_nil, or_false] at h1
    cases pval with
    | int n => simp [isIntValue] at h2
    | str s =>
      rcases h1 with rfl | rfl | rfl | rfl | rfl | rfl | rfl | rfl | rfl | rfl | rfl
        | rfl | rfl <;> rfl
    | list l =>
      rcases h1 with rfl | rfl | rfl | rfl | rfl | rfl | rfl | rfl | rfl | rfl | rfl
        | rfl | rfl <;> rfl
  · simp only [queueOpsStrFields, List.mem_cons, List.not_mem_nil, or_false] at h1
    cases pval with
    | str s => simp [isStrValue] at h2
    | int n => rcases h1 with rfl; rfl
    | list l => rcases h1 with rfl; rfl

theorem connInfoStep_ignored (info : ConnectionInfo) (p : PCFParameter)
    (h : (p.parameter_name ∈ connInfoIntFields ∧ isIntValue p.value = false) ∨
      (p.parameter_name ∈ connInfoStrFields ∧ isStrValue p.value = false)) :
    connInfoStep info p = info := by
  obtain ⟨pid, pty, pname, pval, plen⟩ := p
  rcases h with ⟨h1, h2⟩ | ⟨h1, h2⟩
  · simp only [connInfoIntFields, List.mem_cons, List.not_mem_nil, or_false] at h1
    cases pval with
    | int n => simp [isIntValue] at h2
    | str s => rcases h1 with rfl | rfl | rfl | rfl | rfl <;> rfl
    | list l => rcases h1 with rfl | rfl | rfl | rfl | rfl <;> rfl
  · simp only [connInfoStrFields, List.mem_cons, List.not_mem_nil, or_false] at h1
    cases pval with
    | str s => simp [isStrValue] at h2
    | int n => rcases h1 with rfl | rfl | rfl | rfl <;> rfl
    | list l => rcases h1 with rfl | rfl | rfl | rfl <;> rfl

theorem hexDigitUpper_mem (n : Nat) (h : n < 16) : hexDigitUpper n ∈ hexUpperChars := by
  interval_cases n <;> decide

theorem natHexDigitsAux_length :
    ∀ fuel n k, n < 16 ^ (k + 1) → n ≤ fuel →
      (natHexDigitsAux fuel n).length ≤ k + 1 := by
  intro fuel
  induction fuel with
  | zero => intro n k _ _; simp [natHexDigitsAux]
  | succ f ih =>
    intro n k hk hf
    unfold natHexDigitsAux
    by_cases hsmall : n < 16
    · rw [if_pos hsmall]; simp
    · rw [if_neg hsmall]
      cases k with
      | zero => exact absurd hk (by simpa using hsmall)
      | succ k0 =>
        have hdiv : n / 16 < 16 ^ (k0 + 1) := by
          have hpow : (16 : Nat) ^ (k0 + 2) = 16 ^ (k0 + 1) * 16 := by
            rw [pow_succ]
          exact (Nat.div_lt_iff_lt_mul (by omega)).mpr (by rw [← hpow]; exact hk)
        have hfle : n / 16 ≤ f := by
          have := Nat.div_lt_self (by omega : 0 < n) (by omega : 1 < 16)
          omega
        have := ih (n / 16) k0 hdiv hfle
        simp only [List.length_append, List.length_cons, List.length_nil]
        omega

theorem natHexDigitsAux_chars :
    ∀ fuel n, n ≤ fuel → ∀ c ∈ natHexDigitsAux fuel n, c ∈ hexUpperChars := by
  intro fuel
  induction fuel with
  | zero =>
    intro n hn c hc
    have : n = 0 := by omega
    subst this
    simp [natHexDigitsAux] at hc
    subst hc
    exact hexDigitUpper_mem 0 (by omega)
  | succ f ih =>
    intro n hn c hc
    unfold natHexDigitsAux at hc
    by_cases hsmall : n < 16
    · rw [if_pos hsmall] at hc
      simp at hc
      subst hc
      exact hexDigitUpper_mem n hsmall
    · rw [if_neg hsmall] at hc
      rcases List.mem_append.mp hc with h | h
      · have hfle : n / 16 ≤ f := by
          have := Nat.div_lt_self (by omega : 0 < n) (by omega : 1 < 16)
          omega
        exact ih (n / 16) hfle c h
      · simp at h
        subst h
        exact hexDigitUpper_mem (n % 16) (Nat.mod_lt n (by omega))

theorem takeWhile_append_all {α : Type} (p : α → Bool) (xs : List α) (y : α)
    (rest : List α) (hxs : ∀ b ∈ xs, p b = true) (hy : p y = false) :
    (xs ++ y :: rest).takeWhile p = xs := by
  induction xs with
  | nil => simp [List.takeWhile_cons, hy]
  | cons x xt ih =>
    rw [List.cons_append, List.takeWhile_cons, hxs x (by simp)]
    rw [ih (fun b hb => hxs b (by simp [hb]))]
    simp

theorem getD_append_cons {α : Type} (xs : List α) (y : α) (rest : List α) (d : α) :
    (xs ++ y :: rest).getD xs.length d = y := by
  rw [List.getD_eq_getElem?_getD, List.getElem?_append_right (le_refl xs.length)]
  simp

theorem drop_append_cons {α : Type} (xs : List α) (y : α) (rest : List α) :
    (xs ++ y :: rest).drop (xs.length + 1) = rest := by
  have h := @List.drop_append _ xs (y :: rest) 1
  rw [h, List.drop_one, List.tail_cons]

theorem dropWhile_of_all_false {α : Type} (p : α → Bool) (l : List α)
    (h : ∀ c ∈ l, p c = false) : l.dropWhile p = l := by
  rw [List.dropWhile_eq_self_iff]
  cases l with
  | nil => simp
  | cons a t => simp [h a (by simp)]

theorem utf8DecodeIgnoreAux_ascii :
    ∀ fuel (l : List Nat), l.length ≤ fuel → (∀ b ∈ l, b < 128) →
      utf8DecodeIgnoreAux fuel l = l.map Char.ofNat := by
  intro fuel
  induction fuel with
  | zero =>
    intro l hl _
    have : l = [] := List.length_eq_zero.mp (by omega)
    subst this
    rfl
  | succ f ih =>
    intro l hl hb
    cases l with
    | nil => rfl
    | cons b rest =>
      unfold utf8DecodeIgnoreAux
      rw [if_pos (hb b (by simp))]
      rw [ih rest (by simp at hl; omega) (fun x hx => hb x (by simp [hx]))]
      simp

theorem utf8DecodeIgnore_ascii (l : List Nat) (hb : ∀ b ∈ l, b < 128) :
    utf8DecodeIgnore l = l.map Char.ofNat :=
  utf8DecodeIgnoreAux_ascii l.length l le_rfl hb

theorem charOfNat_toNat (b : Nat) (h : b < 55296) : (Char.ofNat b).toNat = b := by
  simp only [Char.ofNat, Nat.isValidChar]
  rw [dif_pos (Or.inl h)]
  rfl

theorem isPySpace_ofNat (b : Nat) (h32 : 32 < b) (h : b < 55296) :
    isPySpace (Char.ofNat b) = false := by
  have ht := charOfNat_toNat b h
  unfold isPySpace
  simp only [Bool.or_eq_false_iff, decide_eq_false_iff_not]
  refine ⟨⟨⟨⟨⟨?_, ?_⟩, ?_⟩, ?_⟩, ?_⟩, ?_⟩ <;>
    (intro hc
     rw [hc] at ht
     first
       | rw [show (' ' : Char).toNat = 32 by decide] at ht
       | rw [show (Char.ofNat 9).toNat = 9 by decide] at ht
       | rw [show (Char.ofNat 10).toNat = 10 by decide] at ht
       | rw [show (Char.ofNat 11).toNat = 11 by decide] at ht
       | rw [show (Char.ofNat 12).toNat = 12 by decide] at ht
       | rw [show (Char.ofNat 13).toNat = 13 by decide] at ht
     omega)

theorem pyStrip_of_no_space (l : List Char) (h : ∀ c ∈ l, isPySpace c = false) :
    pyStrip (String.mk l) = String.mk l := by
  show String.mk ((((String.mk l).data.dropWhile isPySpace).reverse.dropWhile
    isPySpace).reverse) = String.mk l
  have hdata : (String.mk l).data = l := rfl
  rw [hdata, dropWhile_of_all_false _ l h,
    dropWhile_of_all_false _ l.reverse (fun c hc => h c (List.mem_reverse.mp hc))]
  simp

theorem isNameByte_word (b : Nat) (h : isNameByte b = true) : isWordByte b = true := by
  simp [isNameByte, isWordByte] at h ⊢
  omega

theorem isNameByte_not_digit (b : Nat) (h : isNameByte b = true) :
    isDigitByte b = false := by
  simp [isNameByte, isDigitByte] at h ⊢
  omega

theorem isNameByte_range (b : Nat) (h : isNameByte b = true) : 32 < b ∧ b < 128 := by
  simp [isNameByte] at h
  omega

theorem isDigitByte_range (b : Nat) (h : isDigitByte b = true) : 32 < b ∧ b < 128 := by
  simp [isDigitByte] at h
  omega

theorem parseStructuredPcf_short (data : List Nat) (h : data.length ≤ 44) :
    parseStructuredPcf data = { extraction_method := "structured_pcf" } := by
  unfold parseStructuredPcf
  have hcond : ¬ (36 < data.length - 8) := by omega
  cases hfuel : data.length with
  | zero => rfl
  | succ n =>
    show structuredGo data (n + 1) 36 _ = _
    unfold structuredGo
    rw [if_neg (by omega : ¬ (36 < data.length - 8))]

theorem connMatchAt_nondigit (b : Nat) (l : List Nat) (h : isDigitByte b = false) :
    connMatchAt (b :: l) = none := by
  unfold connMatchAt
  simp [List.takeWhile_cons, h]

theorem connSearch_skip (pre rest : List Nat)
    (h : ∀ b ∈ pre, isDigitByte b = false) :
    connSearch (pre ++ rest) = connSearch rest := by
  induction pre with
  | nil => rfl
  | cons p0 pt ih =>
    rw [List.cons_append]
    have hstep : connSearch (p0 :: (pt ++ rest)) = connSearch (pt ++ rest) := by
      conv_lhs => unfold connSearch
      rw [connMatchAt_nondigit p0 _ (h p0 (by simp))]
    rw [hstep]
    exact ih (fun b hb => h b (by simp [hb]))

theorem connMatchAt_addr (o1 o2 o3 o4 port : List Nat)
    (h1a : 1 ≤ o1.length) (h1b : o1.length ≤ 3) (h1d : ∀ b ∈ o1, isDigitByte b = true)
    (h2a : 1 ≤ o2.length) (h2b : o2.length ≤ 3) (h2d : ∀ b ∈ o2, isDigitByte b = true)
    (h3a : 1 ≤ o3.length) (h3b : o3.length ≤ 3) (h3d : ∀ b ∈ o3, isDigitByte b = true)
    (h4a : 1 ≤ o4.length) (h4b : o4.length ≤ 3) (h4d : ∀ b ∈ o4, isDigitByte b = true)
    (hpa : 1 ≤ port.length) (hpd : ∀ b ∈ port, isDigitByte b = true) :
    connMatchAt (o1 ++ 46 :: (o2 ++ 46 :: (o3 ++ 46 :: (o4 ++ 40 :: (port ++ [41]))))) =
      some (o1 ++ 46 :: (o2 ++ 46 :: (o3 ++ 46 :: o4)), port) := by
  unfold connMatchAt
  simp only [takeWhile_append_all _ o1 46 _ h1d (by decide),
    takeWhile_append_all _ o2 46 _ h2d (by decide),
    takeWhile_append_all _ o3 46 _ h3d (by decide),
    takeWhile_append_all _ o4 40 _ h4d (by decide),
    takeWhile_append_all _ port 41 [] hpd (by decide),
    getD_append_cons, drop_append_cons]
  rw [if_pos (by simp [h1a, h1b])]
  rw [if_pos (by simp [h2a, h2b])]
  rw [if_pos (by simp [h3a, h3b])]
  rw [if_pos (by simp [h4a, h4b])]
  rw [if_pos (by simpa using hpa)]
  have hassoc :
      o1 ++ 46 :: (o2 ++ 46 :: (o3 ++ 46 :: (o4 ++ 40 :: (port ++ [41])))) =
        (o1 ++ 46 :: (o2 ++ 46 :: (o3 ++ 46 :: o4))) ++ 40 :: (port ++ [41]) := by
    simp
  have hlen : (o1 ++ 46 :: (o2 ++ 46 :: (o3 ++ 46 :: o4))).length =
      o1.length + 1 + o2.length + 1 + o3.length + 1 + o4.length := by
    simp
    omega
  rw [hassoc, List.take_left' hlen]

theorem connSearch_head (b : Nat) (rest : List Nat) (r : List Nat × List Nat)
    (h : connMatchAt (b :: rest) = some r) :
    connSearch (b :: rest) = some r := by
  conv_lhs => unfold connSearch
  rw [h]

set_option maxHeartbeats 1000000 in
theorem suffixClassSearch_head (suffix : List Nat) (b : Nat) (rest : List Nat)
    (g : List Nat) (h : suffixClassMatchAt suffix (b :: rest) = some g) :
    suffixClassSearch suffix (b :: rest) = some g := by
  conv_lhs => unfold suffixClassSearch
  rw [h]

theorem suffixClassMatchAt_exe (nameBytes rest : List Nat)
    (hne : nameBytes ≠ []) (hn : ∀ b ∈ nameBytes, isNameByte b = true) :
    suffixClassMatchAt exeSuffixBytes ((nameBytes ++ exeSuffixBytes) ++ 0 :: rest) =
      some (nameBytes ++ exeSuffixBytes) := by
  unfold suffixClassMatchAt
  have hword : ∀ b ∈ nameBytes ++ exeSuffixBytes, isWordByte b = true := by
    intro b hb
    rcases List.mem_append.mp hb with h | h
    · exact isNameByte_word b (hn b h)
    · simp [exeSuffixBytes] at h
      rcases h with rfl | rfl | rfl | rfl <;> decide
  have hsuf : exeSuffixBytes.isSuffixOf (nameBytes ++ exeSuffixBytes) = true := by
    rw [List.isSuffixOf_iff_suffix]
    exact List.suffix_append _ _
  have hpos : 1 ≤ nameBytes.length := List.length_pos.mpr hne
  simp only [takeWhile_append_all _ (nameBytes ++ exeSuffixBytes) 0 rest hword
    (by decide), getD_append_cons]
  rw [if_pos (by simp [hsuf, exeSuffixBytes]; omega)]

/-! ## The claims -/

/-- C1: the spec (and the repository's own tests) require a header whose
    `structure_type` is the known corrupted-signature value `0x16000000`
    (369098752) to come back with a corruption flag set and the message
    kind overridden to a "corrupted" sentinel.  Evaluating `parse_message`
    on the test suite's own corruption buffer shows the decoded header
    carries no corruption marking at all: the message type is the plain
    unknown-type fallback, and the header dict has no corruption key. -/
theorem c1_corrupted_signature_not_flagged :
    parseMessage corruptionTestBuffer = some
      { header :=
          { structure_type := 369098752, structure_length := 0, version := 0,
            command := 0, message_seq_number := 0, control := 0,
            completion_code := 0, reason_code := 0, parameter_count := 0,
            message_type := "unknown_type_369098752" },
        parameters := [], message_size := 104 } ∧
    determineMessageType 369098752 ≠ "corrupted" := by decide

/-- C2 (counterexample): the parameter stream decoder has no
    `min(declared_count, 1000)` ceiling: with a declared count of
    2,000,000 and 1001 records on the wire it decodes all 1001 of them,
    exceeding the claimed 1000-record cap. -/
theorem c2_counterexample_no_thousand_ceiling :
    (parsePcfParameters ((List.replicate 1001 unsupportedFiller).flatten) 2000000).length
      = 1001 ∧ min 2000000 1000 < 1001 := by
  constructor
  · exact parseParams_filler_length 1001 2000000 (by omega)
  · norm_num

/-- C2 (amended): for every input buffer and every declared parameter
    count, the decoder processes at most `declared_count` records (there
    is no extra 1000-record ceiling), and always terminates: the loop is
    bounded by the declared count and stops early at the buffer end. -/
theorem c2_decoder_bounded_by_declared_count (paramBytes : List Nat)
    (declaredCount : Nat) :
    (parsePcfParameters paramBytes declaredCount).length ≤ declaredCount :=
  parseParamsGo_length_le paramBytes declaredCount 0

/-- C3 (counterexample): a truncated integer record is *kept*, not
    discarded: on an 8-byte buffer (id 1, type integer, body missing) the
    decoder returns one record with `consumed_length` 12, which exceeds
    the 8 bytes that remained at its decode offset. -/
theorem c3_counterexample_truncated_record_kept :
    parsePcfParameters [0, 0, 0, 1, 0, 0, 0, 3] 1 =
      [{ parameter_id := 1, parameter_type := 3, parameter_name := "MQIA_Q_TYPE",
         value := .int 0, total_length := 12 }] ∧
    ([0, 0, 0, 1, 0, 0, 0, 3] : List Nat).length < 12 := by decide

/-- C3 (amended): every record in the returned list has
    `consumed_length ≥ 8`; the upper `≤ remaining bytes` bound does not
    hold — a truncated record is emitted with its nominal length (which
    may exceed the remainder) and the loop then stops at the next
    iteration's bounds check. -/
theorem c3_amended_consumed_at_least_subheader (paramBytes : List Nat)
    (declaredCount : Nat) (p : PCFParameter)
    (hp : p ∈ parsePcfParameters paramBytes declaredCount) :
    8 ≤ p.total_length :=
  parseParamsGo_mem_total_ge paramBytes declaredCount 0 p hp

theorem c3_amended_witness :
    8 ≤ ({ parameter_id := 1, parameter_type := 3, parameter_name := "MQIA_Q_TYPE",
           value := .int 0, total_length := 12 } : PCFParameter).total_length :=
  c3_amended_consumed_at_least_subheader [0, 0, 0, 1, 0, 0, 0, 3] 1 _ (by decide)

/-- C4: for every buffer shorter than the 36-byte header, `parse_message`
    returns the failure outcome `None` — no partial header, no parameter
    decoding. -/
theorem c4_too_short_returns_failure (message : List Nat)
    (h : message.length < 36) : parseMessage message = none := by
  unfold parseMessage
  rw [if_pos h]

theorem c4_witness : parseMessage [22, 0, 0] = none :=
  c4_too_short_returns_failure [22, 0, 0] (by decide)

/-- C6 (counterexample): id 2016 is present in both table revisions with
    different names — `pcf_parser` maps it to `MQCA_STORAGE_CLASS`,
    `mq_constants.PARAMETER_NAMES` to `MQCA_Q_NAME`. -/
theorem c6_counterexample_id2016_reassigned :
    pyDictGet pcfParamNames 2016 = some "MQCA_STORAGE_CLASS" ∧
    pyDictGet parameterNamesConstants 2016 = some "MQCA_Q_NAME" ∧
    "MQCA_STORAGE_CLASS" ≠ "MQCA_Q_NAME" := by decide

/-- C6 (amended): the two table revisions are *not* consistent: exactly
    nineteen parameter ids present in both are assigned different names
    (listed below); every other id present in both tables gets the same
    name, and every disagreeing pair of assignments appears in the
    conflict list. -/
theorem c6_amended_tables_conflict_exactly :
    tableConflicts =
      [(2001, "MQCA_Q_NAME", "MQCA_Q_NAME_ALT"),
      (2016, "MQCA_STORAGE_CLASS", "MQCA_Q_NAME"),
      (2024, "MQCA_CLUS_CHL_NAME", "MQCA_APPL_NAME"),
      (3501, "MQCACH_CHANNEL_NAME", "MQCA_CHANNEL_NAME"),
      (3502, "MQCACH_DESC", "MQCA_CONNECTION_NAME"),
      (1, "MQIA_Q_TYPE", "MQIA_Q_TYPE_ALT"),
      (3, "MQIA_MAX_MSG_LENGTH", "MQIA_CURRENT_Q_DEPTH"),
      (14, "MQIA_CURRENT_Q_DEPTH", "MQIA_CURRENT_Q_DEPTH_ALT"),
      (15, "MQIA_OPEN_INPUT_COUNT", "MQIA_OPEN_INPUT_COUNT_ALT"),
      (16, "MQIA_OPEN_OUTPUT_COUNT", "MQIA_OPEN_OUTPUT_COUNT_ALT"),
      (17, "MQIA_HIGH_Q_DEPTH", "MQIA_HIGH_Q_DEPTH_ALT"),
      (18, "MQIA_MSG_ENQ_COUNT", "MQIA_MSG_ENQ_COUNT_ALT"),
      (19, "MQIA_MSG_DEQ_COUNT", "MQIA_MSG_DEQ_COUNT_ALT"),
      (20, "MQIA_TIME_SINCE_RESET", "MQIA_Q_TYPE"),
      (36, "MQIA_SYNC_POINT", "MQIA_HIGH_Q_DEPTH"),
      (37, "MQIA_DEFSOPT", "MQIA_MSG_ENQ_COUNT"),
      (38, "MQIA_DEF_READ_AHEAD", "MQIA_MSG_DEQ_COUNT"),
      (65, "MQIA_CHL_COUNT", "MQIA_OPEN_INPUT_COUNT"),
      (66, "MQIA_CHL_TOTAL_BYTES", "MQIA_OPEN_OUTPUT_COUNT")] ∧
    ∀ id n1 n2, pyDictGet pcfParamNames id = some n1 →
      pyDictGet parameterNamesConstants id = some n2 → n1 ≠ n2 →
      (id, n1, n2) ∈ tableConflicts := by
  constructor
  · decide
  · intro id n1 n2 h1 h2 hne
    have hfind := h1
    unfold pyDictGet at hfind
    cases hf : (pcfParamNames.reverse).find? (fun e => e.fst == id) with
    | none => rw [hf] at hfind; simp at hfind
    | some e0 =>
      rw [hf] at hfind
      simp at hfind
      have hmem : e0 ∈ pcfParamNames.reverse := List.mem_of_find?_eq_some hf
      have hkey := List.find?_some hf
      have hkey2 : e0.fst = id := by simpa using hkey
      refine List.mem_filterMap.mpr ⟨e0, List.mem_reverse.mp hmem, ?_⟩
      rw [hkey2, h1, h2]
      simp [hne]

theorem c6_amended_witness :
    ((2016 : Nat), ("MQCA_STORAGE_CLASS" : String), ("MQCA_Q_NAME" : String)) ∈
      tableConflicts :=
  c6_amended_tables_conflict_exactly.2 2016 "MQCA_STORAGE_CLASS" "MQCA_Q_NAME"
    (by decide) (by decide) (by decide)

/-- C7 (counterexample): the header decoder reads the nine fields with
    `struct.unpack(">9L", ...)`, i.e. *unsigned*: a `structure_type`
    field of `FF FF FF FF` decodes to 4294967295, not to the −1 that the
    claimed signed decoding (`toSigned32`) would produce. -/
theorem c7_counterexample_top_bit_positive :
    (parseMessage topBitHeaderBuffer).map (fun m => (m.header.structure_type : Int))
      = some 4294967295 ∧
    toSigned32 (be32At topBitHeaderBuffer 0) = -1 ∧
    (4294967295 : Int) ≠ -1 := by decide

/-- C7 (amended): for every buffer of at least 36 byte values, header
    decoding reads nine consecutive 4-byte big-endian *unsigned* 32-bit
    integers, assigned in order to structure_type, structure_length,
    version, command, message_sequence_number, control, completion_code,
    reason_code and parameter_count; a field whose top bit is set decodes
    to a large positive value (every field lies in `[0, 2^32)`). -/
theorem c7_amended_header_reads_nine_be32_unsigned (message : List Nat)
    (hlen : 36 ≤ message.length) (hbytes : ∀ b ∈ message, b < 256) :
    ∃ m, parseMessage message = some m ∧
      m.header.structure_type = be32At message 0 ∧
      m.header.structure_length = be32At message 4 ∧
      m.header.version = be32At message 8 ∧
      m.header.command = be32At message 12 ∧
      m.header.message_seq_number = be32At message 16 ∧
      m.header.control = be32At message 20 ∧
      m.header.completion_code = be32At message 24 ∧
      m.header.reason_code = be32At message 28 ∧
      m.header.parameter_count = be32At message 32 ∧
      (∀ off, be32At message off < 4294967296) := by
  have htake : (message.take 36).length = 36 := by
    rw [List.length_take]; omega
  unfold parseMessage
  rw [if_neg (by omega)]
  unfold parsePcfHeader
  rw [if_pos htake]
  exact ⟨_, rfl, be32At_take36 _ 0 (by omega), be32At_take36 _ 4 (by omega),
    be32At_take36 _ 8 (by omega), be32At_take36 _ 12 (by omega),
    be32At_take36 _ 16 (by omega), be32At_take36 _ 20 (by omega),
    be32At_take36 _ 24 (by omega), be32At_take36 _ 28 (by omega),
    be32At_take36 _ 32 (by omega), fun off => be32At_lt message hbytes off⟩

theorem c7_amended_witness :
    ∃ m, parseMessage topBitHeaderBuffer = some m ∧
      m.header.structure_type = be32At topBitHeaderBuffer 0 ∧
      m.header.structure_length = be32At topBitHeaderBuffer 4 ∧
      m.header.version = be32At topBitHeaderBuffer 8 ∧
      m.header.command = be32At topBitHeaderBuffer 12 ∧
      m.header.message_seq_number = be32At topBitHeaderBuffer 16 ∧
      m.header.control = be32At topBitHeaderBuffer 20 ∧
      m.header.completion_code = be32At topBitHeaderBuffer 24 ∧
      m.header.reason_code = be32At topBitHeaderBuffer 28 ∧
      m.header.parameter_count = be32At topBitHeaderBuffer 32 ∧
      (∀ off, be32At topBitHeaderBuffer off < 4294967296) :=
  c7_amended_header_reads_nine_be32_unsigned topBitHeaderBuffer (by decide) (by decide)

/-- C8: the queue-operations extractor sets `has_readers` exactly when
    `get_count > 0` or `browse_count > 0` or `open_input_count > 0`, and
    `has_writers` exactly when `put_count > 0` or
    `open_output_count > 0`. -/
theorem c8_reader_writer_flags (parameters : List PCFParameter) :
    (extractQueueOperations parameters).has_readers =
      (decide (0 < (extractQueueOperations parameters).get_count) ||
        decide (0 < (extractQueueOperations parameters).browse_count) ||
        decide (0 < (extractQueueOperations parameters).open_input_count)) ∧
    (extractQueueOperations parameters).has_writers =
      (decide (0 < (extractQueueOperations parameters).put_count) ||
        decide (0 < (extractQueueOperations parameters).open_output_count)) :=
  ⟨rfl, rfl⟩

/-- C10: in both semantic extractors, a parameter whose resolved name is
    tracked but whose value has the wrong dynamic type is silently
    ignored — the extraction result is the same as if the parameter were
    absent, wherever it sits in the stream. -/
theorem c10_wrong_dynamic_type_ignored (l1 l2 l3 l4 : List PCFParameter)
    (p q : PCFParameter)
    (hp : (p.parameter_name ∈ queueOpsIntFields ∧ isIntValue p.value = false) ∨
      (p.parameter_name ∈ queueOpsStrFields ∧ isStrValue p.value = false))
    (hq : (q.parameter_name ∈ connInfoIntFields ∧ isIntValue q.value = false) ∨
      (q.parameter_name ∈ connInfoStrFields ∧ isStrValue q.value = false)) :
    extractQueueOperations (l1 ++ p :: l2) = extractQueueOperations (l1 ++ l2) ∧
    extractConnectionInfo (l3 ++ q :: l4) = extractConnectionInfo (l3 ++ l4) := by
  constructor
  · unfold extractQueueOperations
    rw [List.foldl_append, List.foldl_append, List.foldl_cons,
      queueOpsStep_ignored _ p hp]
  · unfold extractConnectionInfo
    rw [List.foldl_append, List.foldl_append, List.foldl_cons,
      connInfoStep_ignored _ q hq]

/-- C5: the name resolver is a pure, total function: an id present in the
    static table resolves to that table entry, and an id outside the table
    resolves to `UNKNOWN_PARAM_<decimal id>_0x` followed by exactly eight
    uppercase hexadecimal digits of the id. -/
theorem c5_resolver_total_with_unknown_pattern (paramId : Nat)
    (hid : paramId < 4294967296) :
    (∀ name, pyDictGet pcfParamNames paramId = some name →
      getParameterName paramId = name) ∧
    (pyDictGet pcfParamNames paramId = none →
      getParameterName paramId =
        "UNKNOWN_PARAM_" ++ toString paramId ++ "_0x" ++ hex8Upper paramId ∧
      (hex8Upper paramId).length = 8 ∧
      ∀ c ∈ (hex8Upper paramId).data, c ∈ hexUpperChars) := by
  constructor
  · intro name h
    unfold getParameterName
    rw [h]
    rfl
  · intro h
    have hds : (natHexDigits paramId).length ≤ 8 :=
      natHexDigitsAux_length paramId paramId 7 (by norm_num at hid ⊢; omega) le_rfl
    refine ⟨by unfold getParameterName; rw [h]; rfl, ?_, ?_⟩
    · show (String.mk (List.replicate (8 - (natHexDigits paramId).length) '0' ++
        natHexDigits paramId)).length = 8
      simp only [String.length, List.length_append, List.length_replicate]
      omega
    · intro c hc
      have hc2 : c ∈ List.replicate (8 - (natHexDigits paramId).length) '0' ++
          natHexDigits paramId := hc
      rcases List.mem_append.mp hc2 with hrep | hdig
      · rw [List.eq_of_mem_replicate hrep]; decide
      · exact natHexDigitsAux_chars paramId paramId le_rfl c hdig

theorem c5_witness :
    pyDictGet pcfParamNames 4096 = none ∧
    getParameterName 4096 = "UNKNOWN_PARAM_4096_0x00001000" := by
  refine ⟨by decide, ?_⟩
  have h := ((c5_resolver_total_with_unknown_pattern 4096 (by decide)).2 (by decide)).1
  rw [h]
  decide

/-- C9 (counterexample): with the filename *immediately* followed by the
    address (no NUL in between), the executable pattern
    `rb"([a-zA-Z0-9_\-\.]+\.exe)\x00"` cannot match, so the pattern tier
    returns `found=true` with the address but the application name stays
    `"unknown"` instead of `"app.exe"`. -/
theorem c9_counterexample_no_nul_no_filename :
    extractApplicationInfo noNulBuffer =
      { application_name := "unknown", application_tag := "unknown",
        client_ip := "192.168.1.100",
        connection_name := "192.168.1.100(1414)",
        channel_name := "unknown", user_id := "unknown",
        extraction_method := "pattern_matching", raw_data_found := true } ∧
    asciiStr [97, 112, 112, 46, 101, 120, 101] = "app.exe" ∧
    "unknown" ≠ "app.exe" := by
  refine ⟨by decide, by decide, by decide⟩

/-- C9 (amended): for a raw buffer holding an executable filename (base
    name of letters, underscores or hyphens, then ".exe"), a NUL
    terminator, and then a dotted-quad address in parenthesized-port form,
    with the buffer too short (≤ 44 bytes) for the structured walk to
    engage, identity extraction succeeds via the pattern tier with
    `found=true`, the filename as the application name, and the address
    and port as client address and connection name. -/
theorem c9_amended_nul_terminated_extraction
    (nameBytes o1 o2 o3 o4 port : List Nat)
    (hname : nameBytes ≠ []) (hnb : ∀ b ∈ nameBytes, isNameByte b = true)
    (h1a : 1 ≤ o1.length) (h1b : o1.length ≤ 3) (h1d : ∀ b ∈ o1, isDigitByte b = true)
    (h2a : 1 ≤ o2.length) (h2b : o2.length ≤ 3) (h2d : ∀ b ∈ o2, isDigitByte b = true)
    (h3a : 1 ≤ o3.length) (h3b : o3.length ≤ 3) (h3d : ∀ b ∈ o3, isDigitByte b = true)
    (h4a : 1 ≤ o4.length) (h4b : o4.length ≤ 3) (h4d : ∀ b ∈ o4, isDigitByte b = true)
    (hpa : 1 ≤ port.length) (hpd : ∀ b ∈ port, isDigitByte b = true)
    (hlen : (scenarioEBuffer nameBytes o1 o2 o3 o4 port).length ≤ 44) :
    extractApplicationInfo (scenarioEBuffer nameBytes o1 o2 o3 o4 port) =
      { application_name := asciiStr (nameBytes ++ exeSuffixBytes)
        application_tag := "unknown"
        client_ip := asciiStr (o1 ++ 46 :: (o2 ++ 46 :: (o3 ++ 46 :: o4)))
        connection_name :=
          asciiStr (o1 ++ 46 :: (o2 ++ 46 :: (o3 ++ 46 :: o4))) ++ "(" ++
            asciiStr port ++ ")"
        channel_name := "unknown"
        user_id := "unknown"
        extraction_method := "pattern_matching"
        raw_data_found := true } := by
  set ipp : List Nat :=
    o1 ++ 46 :: (o2 ++ 46 :: (o3 ++ 46 :: (o4 ++ 40 :: (port ++ [41])))) with hipp
  set ipBytes : List Nat := o1 ++ 46 :: (o2 ++ 46 :: (o3 ++ 46 :: o4)) with hipBytes
  set run : List Nat := nameBytes ++ exeSuffixBytes with hrun
  have hbufEq : scenarioEBuffer nameBytes o1 o2 o3 o4 port = run ++ 0 :: ipp := rfl
  obtain ⟨n0, nt, hns⟩ : ∃ a t, nameBytes = a :: t := by
    cases nameBytes with
    | nil => exact absurd rfl hname
    | cons a t => exact ⟨a, t, rfl⟩
  -- the application-name pattern chain finds the NUL-terminated filename
  have hmatch : suffixClassMatchAt exeSuffixBytes (run ++ 0 :: ipp) = some run :=
    suffixClassMatchAt_exe nameBytes ipp hname hnb
  have hcons : run ++ 0 :: ipp = n0 :: ((nt ++ exeSuffixBytes) ++ 0 :: ipp) := by
    rw [hrun, hns]
    simp
  have happ : suffixClassSearch exeSuffixBytes (run ++ 0 :: ipp) = some run := by
    rw [hcons]
    exact suffixClassSearch_head _ _ _ _ (by rw [← hcons]; exact hmatch)
  have happs : appPatternSearch (run ++ 0 :: ipp) = some (some run) := by
    unfold appPatternSearch
    rw [happ]
  -- the connection pattern finds the address after the non-digit prefix
  have hpre : ∀ b ∈ run ++ [0], isDigitByte b = false := by
    intro b hb
    rcases List.mem_append.mp hb with h | h
    · rw [hrun] at h
      rcases List.mem_append.mp h with h2 | h2
      · exact isNameByte_not_digit b (hnb b h2)
      · simp [exeSuffixBytes] at h2
        rcases h2 with rfl | rfl | rfl | rfl <;> decide
    · simp at h
      subst h
      decide
  have hsplit : run ++ 0 :: ipp = (run ++ [0]) ++ ipp := by simp
  obtain ⟨d0, dt, hds⟩ : ∃ a t, o1 = a :: t := by
    cases o1 with
    | nil => simp at h1a
    | cons a t => exact ⟨a, t, rfl⟩
  have hippCons : ipp = d0 :: (dt ++ 46 :: (o2 ++ 46 :: (o3 ++ 46 :: (o4 ++ 40 :: (port ++ [41]))))) := by
    rw [hipp, hds]
    simp
  have haddr : connMatchAt ipp = some (ipBytes, port) :=
    connMatchAt_addr o1 o2 o3 o4 port h1a h1b h1d h2a h2b h2d h3a h3b h3d
      h4a h4b h4d hpa hpd
  have hconn : connSearch (run ++ 0 :: ipp) = some (ipBytes, port) := by
    rw [hsplit, connSearch_skip _ _ hpre, hippCons]
    exact connSearch_head _ _ _ (by rw [← hippCons]; exact haddr)
  -- decoding the matched byte slices
  have hrun128 : ∀ b ∈ run, b < 128 := by
    intro b hb
    rw [hrun] at hb
    rcases List.mem_append.mp hb with h | h
    · exact (isNameByte_range b (hnb b h)).2
    · simp [exeSuffixBytes] at h
      rcases h with rfl | rfl | rfl | rfl <;> decide
  have hrun32 : ∀ b ∈ run, 32 < b := by
    intro b hb
    rw [hrun] at hb
    rcases List.mem_append.mp hb with h | h
    · exact (isNameByte_range b (hnb b h)).1
    · simp [exeSuffixBytes] at h
      rcases h with rfl | rfl | rfl | rfl <;> decide
  have hip128 : ∀ b ∈ ipBytes, b < 128 := by
    intro b hb
    rw [hipBytes] at hb
    have hdig : isDigitByte b = true ∨ b = 46 := by
      rcases List.mem_append.mp hb with h | h
      · exact Or.inl (h1d b h)
      · rcases List.mem_cons.mp h with rfl | h2
        · exact Or.inr rfl
        · rcases List.mem_append.mp h2 with h3 | h3
          · exact Or.inl (h2d b h3)
          · rcases List.mem_cons.mp h3 with rfl | h4
            · exact Or.inr rfl
            · rcases List.mem_append.mp h4 with h5 | h5
              · exact Or.inl (h3d b h5)
              · rcases List.mem_cons.mp h5 with rfl | h6
                · exact Or.inr rfl
                · exact Or.inl (h4d b h6)
    rcases hdig with h | rfl
    · exact (isDigitByte_range b h).2
    · decide
  have hport128 : ∀ b ∈ port, b < 128 := fun b hb => (isDigitByte_range b (hpd b hb)).2
  have hdecRun : utf8DecodeIgnore run = run.map Char.ofNat :=
    utf8DecodeIgnore_ascii run hrun128
  have hstripRun : pyStrip (String.mk (run.map Char.ofNat)) =
      String.mk (run.map Char.ofNat) := by
    apply pyStrip_of_no_space
    intro c hc
    obtain ⟨b, hb, rfl⟩ := List.mem_map.mp hc
    exact isPySpace_ofNat b (hrun32 b hb) (by have := hrun128 b hb; omega)
  -- the pattern tier result
  have hpat : extractByPatterns (run ++ 0 :: ipp) = .ok
      { application_name := asciiStr run
        client_ip := asciiStr ipBytes
        connection_name := some (asciiStr ipBytes ++ "(" ++ asciiStr port ++ ")")
        extraction_method := "pattern_matching"
        raw_data_found := true } := by
    unfold extractByPatterns
    rw [happs]
    dsimp only
    rw [hconn]
    dsimp only
    rw [hdecRun, hstripRun,
      utf8DecodeIgnore_ascii ipBytes hip128,
      utf8DecodeIgnore_ascii port hport128]
    rfl
  -- the structured tier finds nothing on a short buffer
  have hstruct : parseStructuredPcf (run ++ 0 :: ipp) =
      { extraction_method := "structured_pcf" } :=
    parseStructuredPcf_short _ (by rw [← hbufEq]; exact hlen)
  -- assemble
  rw [hbufEq]
  unfold extractApplicationInfo
  rw [hstruct]
  dsimp only
  rw [hpat]
  rfl

theorem c9_amended_witness :
    extractApplicationInfo
        (scenarioEBuffer [97, 112, 112] [49, 57, 50] [49, 54, 56] [49]
          [49, 48, 48] [49, 52, 49, 52]) =
      { application_name := "app.exe", application_tag := "unknown",
        client_ip := "192.168.1.100",
        connection_name := "192.168.1.100(1414)",
        channel_name := "unknown", user_id := "unknown",
        extraction_method := "pattern_matching", raw_data_found := true } := by
  rw [c9_amended_nul_terminated_extraction [97, 112, 112] [49, 57, 50]
    [49, 54, 56] [49] [49, 48, 48] [49, 52, 49, 52]
    (by decide) (by decide) (by decide) (by decide) (by decide) (by decide)
    (by decide) (by decide) (by decide) (by decide) (by decide) (by decide)
    (by decide) (by decide) (by decide) (by decide) (by decide)]
  decide

theorem c10_witness :
    extractQueueOperations ([] ++
        { parameter_id := 52, parameter_type := 4,
          parameter_name := "MQIA_GET_COUNT", value := .str "five hundred",
          total_length := 12 } :: []) = extractQueueOperations ([] ++ []) ∧
    extractConnectionInfo ([] ++
        { parameter_id := 3501, parameter_type := 3,
          parameter_name := "MQCACH_CHANNEL_NAME", value := .int 7,
          total_length := 12 } :: []) = extractConnectionInfo ([] ++ []) :=
  c10_wrong_dynamic_type_ignored [] [] [] [] _ _
    (Or.inl ⟨by decide, by decide⟩) (Or.inr ⟨by decide, by decide⟩)

end MQStat
